import Mathlib

/-!
Verification development for the compliance-analysis pipeline of the
regulation-aware site auditor
(`backend/services/compliance_scanner.py`, `issue_mapper.py`,
`remediation_advisor.py`, `multi_agent_auditor.py`).

The Python sources are embedded shallowly:

* Strings are Lean `String`s; all character-level work happens on the
  underlying `List Char` through small structurally recursive helpers that
  implement the exact Python string operations used by the sources
  (`in`, `split`, `strip`, `lower`, `upper`, `replace`, `isdigit`,
  `startswith`, `str(int)`).
* The parsed HTML document (`BeautifulSoup(html_content, 'html.parser')`)
  is modelled as a forest of `Node` trees; the document-model provider is
  outside the verified subsystem, so functions that take `html_content`
  and immediately parse it take the parsed forest instead.
* Python exceptions are modelled with `Except String`; a function that can
  only raise through a dynamically typed argument takes that argument at
  its Python-level type (`Option String` for a `str`-annotated but
  unchecked parameter that is dereferenced with a method call).
* The external LLM collaborator is an oracle input: its outcome is an
  explicit `Except String String` argument (failure = the call raised).
-/

namespace Auditor

/-! ## Python string primitives (on `List Char`) -/

/-- Python `needle in hay` substring test on character lists. -/
def charsContains (needle hay : List Char) : Bool :=
  hay.tails.any (fun t => needle.isPrefixOf t)

/-- Python `needle in hay` substring test on strings. -/
def pyIn (needle hay : String) : Bool :=
  charsContains needle.data hay.data

/-- Python `s.lower()` (ASCII case folding, which is all the sources use). -/
def pyLower (s : String) : String :=
  ⟨s.data.map Char.toLower⟩

/-- Python `s.upper()` (ASCII). -/
def pyUpper (s : String) : String :=
  ⟨s.data.map Char.toUpper⟩

/-- Python `s.strip()` on character lists. -/
def stripChars (s : List Char) : List Char :=
  ((s.dropWhile Char.isWhitespace).reverse.dropWhile Char.isWhitespace).reverse

/-- Python `s.strip()`. -/
def pyStrip (s : String) : String :=
  ⟨stripChars s.data⟩

/-- Python `s.split(sep)` for a one-character separator: splits at every
occurrence, keeping empty fields. -/
def splitOnCharList (c : Char) : List Char → List (List Char)
  | [] => [[]]
  | x :: xs =>
    if x = c then
      [] :: splitOnCharList c xs
    else
      match splitOnCharList c xs with
      | [] => [[x]]
      | g :: gs => (x :: g) :: gs

/-- Python `s.split('.')` as used by the narrative parsers. -/
def pySplitDot (s : String) : List String :=
  (splitOnCharList '.' s.data).map (fun cs => ⟨cs⟩)

/-- Split at every character satisfying `p`, keeping empty fields. -/
def splitOnPredList (p : Char → Bool) : List Char → List (List Char)
  | [] => [[]]
  | x :: xs =>
    if p x then
      [] :: splitOnPredList p xs
    else
      match splitOnPredList p xs with
      | [] => [[x]]
      | g :: gs => (x :: g) :: gs

/-- Python `s.split()` (no argument): split on whitespace runs, dropping
empty fields. -/
def pySplitWs (s : String) : List String :=
  ((splitOnPredList Char.isWhitespace s.data).filter (fun g => g ≠ [])).map
    (fun cs => ⟨cs⟩)

/-- Python `s.replace('\n', '. ')` as used by the narrative parsers
(single-character needle). -/
def pyReplaceNl (s : String) : String :=
  ⟨(s.data.map (fun c => if c = '\n' then ['.', ' '] else [c])).flatten⟩

/-- Python `s.isdigit()` (restricted to ASCII digits, which is all that
occurs in the sources). -/
def pyIsDigit (s : String) : Bool :=
  s.data ≠ [] && s.data.all Char.isDigit

/-- Python `int(s)` on a string of ASCII digits. -/
def pyIntOfDigits (s : String) : Nat :=
  s.data.foldl (fun a c => 10 * a + (c.toNat - 48)) 0

/-- Python `s.startswith(p)`. -/
def pyStartswith (p s : String) : Bool :=
  p.data.isPrefixOf s.data

/-- Decimal digit character for `d < 10`. -/
def digitChar10 (d : Nat) : Char :=
  Char.ofNat (48 + d)

/-- Fuel-driven core of `pyStrNat`; the fuel is structurally decreasing so
that the kernel can evaluate it. -/
def natDigitsAux : Nat → Nat → List Char
  | 0, _ => []
  | fuel + 1, n =>
    if n < 10 then [digitChar10 n]
    else natDigitsAux fuel (n / 10) ++ [digitChar10 (n % 10)]

/-- Python `str(n)` for a non-negative int (the only case the sources hit:
the formatted values are list lengths and sums of non-negative hours). -/
def pyStrNat (n : Nat) : String :=
  ⟨natDigitsAux (n + 1) n⟩

/-- Python truthiness of an optional string attribute value:
`None` and `""` are falsy. -/
def pyTruthy : Option String → Bool
  | none => false
  | some s => s ≠ ""

/-! ## Document model

`backend/services/compliance_scanner.py` and `issue_mapper.py` receive
`html_content` and immediately parse it with
`BeautifulSoup(html_content, 'html.parser')`.  Parsing is performed by a
third-party library outside the audited subsystem, so the embedding takes
the parsed document: a forest of element/text nodes.  Attribute values are
the raw attribute strings. -/

inductive Node where
  | el (tag : String) (attrs : List (String × String)) (children : List Node)
  | txt (s : String)

/-- A parsed document: the top-level nodes under BeautifulSoup's
`[document]` root. -/
abbrev Doc := List Node

def Node.tag : Node → String
  | .el t _ _ => t
  | .txt _ => ""

def Node.attrsOf : Node → List (String × String)
  | .el _ a _ => a
  | .txt _ => []

def Node.isElem : Node → Bool
  | .el _ _ _ => true
  | .txt _ => false

/-- BeautifulSoup `tag.get(key)`: the attribute value, or `None`. -/
def Node.get (n : Node) (key : String) : Option String :=
  (n.attrsOf.find? (fun kv => kv.1 = key)).map (fun kv => kv.2)

/-- BeautifulSoup `tag.string`: the single text child, descending through
single-element wrappers; `None` as soon as there is more than one child. -/
def Node.strVal : Node → Option String
  | .txt s => some s
  | .el _ _ [c] => Node.strVal c
  | .el _ _ _ => none

/-- An occurrence of a node in a document: the node together with its
chain of element ancestors, innermost first. -/
abbrev Occ := List Node × Node

mutual
/-- Pre-order occurrence list of one subtree (ancestors innermost first). -/
def nodeOccs (anc : List Node) : Node → List Occ
  | .txt s => [(anc, .txt s)]
  | .el t a cs => ((anc, .el t a cs)) :: forestOccs (Node.el t a cs :: anc) cs
/-- Pre-order occurrence list of a forest. -/
def forestOccs (anc : List Node) : List Node → List Occ
  | [] => []
  | n :: ns => nodeOccs anc n ++ forestOccs anc ns
end

/-- All occurrences of a document in document (pre-)order, as BeautifulSoup
iterates descendants. -/
def docOccs (doc : Doc) : List Occ :=
  forestOccs [] doc

/-- Element occurrences of a document in document order. -/
def elemOccs (doc : Doc) : List Occ :=
  (docOccs doc).filter (fun o => o.2.isElem)

/-- BeautifulSoup `soup.find_all(name)` (with ancestor tracking). -/
def findAllTagOcc (doc : Doc) (t : String) : List Occ :=
  (elemOccs doc).filter (fun o => o.2.tag = t)

/-- BeautifulSoup `soup.find_all(name)` returning the nodes. -/
def findAllTag (doc : Doc) (t : String) : List Node :=
  (findAllTagOcc doc t).map (fun o => o.2)

/-- BeautifulSoup `soup.find_all([n1, n2, ...])` returning the nodes. -/
def findAllTags (doc : Doc) (ts : List String) : List Node :=
  ((elemOccs doc).filter (fun o => ts.contains o.2.tag)).map (fun o => o.2)

/-- All text-node strings of a document in document order. -/
def docStrings (doc : Doc) : List String :=
  (docOccs doc).filterMap (fun o =>
    match o.2 with
    | .txt s => some s
    | .el _ _ _ => none)

/-- Text-node strings below one node (the node itself included when it is
text), in document order. -/
def Node.descStrings (n : Node) : List String :=
  (nodeOccs [] n).filterMap (fun o =>
    match o.2 with
    | .txt s => some s
    | .el _ _ _ => none)

/-- BeautifulSoup `tag.get_text(strip=True)`: every descendant string
stripped and concatenated. -/
def Node.getTextStrip (n : Node) : String :=
  ⟨((n.descStrings.map (fun s => stripChars s.data))).flatten⟩

/-- CSS attribute-substring selector `[key*=needle]` on one element. -/
def attrContains (n : Node) (key needle : String) : Bool :=
  match n.get key with
  | none => false
  | some v => pyIn needle v


/-! ## Technical scanner (`compliance_scanner.py`)

`ComplianceScanner.scan_website(url, html_content, website_data)` resets
`self.violations`, runs the five check groups in declaration order, each
appending to `self.violations`, and returns that list.  Each check group
is embedded as a function from the parsed document to the list it appends,
in append order.  `website_data` is never read by any check and is
omitted. -/

structure Violation where
  type : String
  severity : String
  element : String
  description : String
  regulation : String
  xpath : String := ""
  recommendation : String := ""
deriving DecidableEq

/-- The six CSS attribute-substring selectors of the cookie-banner check,
in source order. -/
def cookie_banner_selectors : List (String × String) :=
  [("id", "cookie"), ("class", "cookie"), ("id", "consent"),
   ("class", "consent"), ("id", "gdpr"), ("class", "gdpr")]

/-- `soup.select('[key*="needle"]')`. -/
def soupSelectAttrSub (doc : Doc) (key needle : String) : List Node :=
  ((elemOccs doc).filter (fun o => attrContains o.2 key needle)).map (fun o => o.2)

/-- `ComplianceScanner._check_gdpr_compliance` (its `url` and
`website_data` parameters are unused in the body). -/
def check_gdpr_compliance (doc : Doc) : List Violation :=
  -- 1. Cookie Banner Check
  let has_cookie_banner :=
    cookie_banner_selectors.any (fun kv => !(soupSelectAttrSub doc kv.1 kv.2).isEmpty)
  let v1 : List Violation :=
    if !has_cookie_banner then
      [{ type := "gdpr_cookie_banner", severity := "critical",
         element := "document",
         description := "Missing cookie consent banner required by GDPR Article 7",
         regulation := "GDPR Article 7",
         recommendation := "Implement cookie consent banner with accept/reject options" }]
    else []
  -- 2. Privacy Policy Check: a-tags whose string or href matches /privacy/i
  let privacy_links :=
    (findAllTag doc "a").filter (fun a =>
      match a.strVal with
      | some s => pyIn "privacy" (pyLower s)
      | none => false) ++
    (findAllTag doc "a").filter (fun a =>
      match a.get "href" with
      | some h => pyIn "privacy" (pyLower h)
      | none => false)
  let v2 : List Violation :=
    if privacy_links.isEmpty then
      [{ type := "gdpr_privacy_policy", severity := "high",
         element := "navigation",
         description := "Missing privacy policy link required by GDPR Article 13",
         regulation := "GDPR Article 13",
         recommendation := "Add visible privacy policy link in footer or header" }]
    else []
  -- 3. Contact Information Check: strings matching /contact|email|phone/i
  let contact_elements :=
    (docStrings doc).filter (fun s =>
      pyIn "contact" (pyLower s) || pyIn "email" (pyLower s) ||
        pyIn "phone" (pyLower s))
  let v3 : List Violation :=
    if contact_elements = [] then
      [{ type := "gdpr_contact_info", severity := "medium",
         element := "document",
         description := "Missing data controller contact information",
         regulation := "GDPR Article 13",
         recommendation := "Provide clear contact information for data protection queries" }]
    else []
  v1 ++ v2 ++ v3

/-- The input types accepted by the form-label checks. -/
def labelled_input_types : List String :=
  ["text", "email", "password", "tel", "url"]

/-- `soup.find_all('input', type=[...])`. -/
def typedInputs (doc : Doc) : List Node :=
  (findAllTag doc "input").filter (fun i =>
    match i.get "type" with
    | some t => labelled_input_types.contains t
    | none => false)

/-- `ComplianceScanner._check_wcag_compliance`. -/
def check_wcag_compliance (doc : Doc) : List Violation :=
  -- 1. Image Alt Text Check
  let images := findAllTag doc "img"
  let missing_alt :=
    images.filterMap (fun img =>
      if !pyTruthy (img.get "alt") && !pyTruthy (img.get "aria-label") then
        some ((img.get "src").getD "unknown")
      else none)
  let v1 : List Violation :=
    if missing_alt ≠ [] then
      [{ type := "wcag_missing_alt", severity := "high",
         element := pyStrNat missing_alt.length ++ " images",
         description := "Images missing alt text: " ++ pyStrNat missing_alt.length ++ " violations",
         regulation := "WCAG 2.1 Success Criterion 1.1.1",
         recommendation := "Add descriptive alt text to all images" }]
    else []
  -- 2. Heading Structure Check
  let h1_count := (findAllTag doc "h1").length
  let v2 : List Violation :=
    if h1_count = 0 then
      [{ type := "wcag_missing_h1", severity := "high",
         element := "document",
         description := "Missing main heading (h1) element",
         regulation := "WCAG 2.1 Success Criterion 1.3.1",
         recommendation := "Add a descriptive h1 heading to the page" }]
    else if h1_count > 1 then
      [{ type := "wcag_multiple_h1", severity := "medium",
         element := "document",
         description := "Multiple h1 elements found (" ++ pyStrNat h1_count ++ ")",
         regulation := "WCAG 2.1 Success Criterion 1.3.1",
         recommendation := "Use only one h1 element per page" }]
    else []
  -- 3. Form Label Check
  let labels := findAllTag doc "label"
  let unlabeled_inputs :=
    (typedInputs doc).filterMap (fun i =>
      let has_label :=
        match i.get "id" with
        | some input_id => labels.any (fun l => l.get "for" = some input_id)
        | none => false
      if !has_label && !pyTruthy (i.get "aria-label") &&
          !pyTruthy (i.get "aria-labelledby") then
        some ((i.get "name").getD "unnamed")
      else none)
  let v3 : List Violation :=
    if unlabeled_inputs ≠ [] then
      [{ type := "wcag_unlabeled_inputs", severity := "high",
         element := pyStrNat unlabeled_inputs.length ++ " form inputs",
         description := "Form inputs without proper labels: " ++
           pyStrNat unlabeled_inputs.length ++ " violations",
         regulation := "WCAG 2.1 Success Criterion 1.3.1",
         recommendation := "Add proper labels or aria-label attributes to all form inputs" }]
    else []
  -- 4. Link Text Check
  let generic_links :=
    ((findAllTag doc "a").filter (fun a => (a.get "href").isSome)).filterMap
      (fun link =>
        let link_text := pyLower link.getTextStrip
        if link_text ∈ (["click here", "read more", "more", "here", "link"] : List String) then
          some link_text
        else none)
  let v4 : List Violation :=
    if generic_links ≠ [] then
      [{ type := "wcag_generic_links", severity := "medium",
         element := pyStrNat generic_links.length ++ " links",
         description := "Links with non-descriptive text: " ++
           pyStrNat generic_links.length ++ " violations",
         regulation := "WCAG 2.1 Success Criterion 2.4.4",
         recommendation := "Use descriptive link text that indicates the link's purpose" }]
    else []
  v1 ++ v2 ++ v3 ++ v4

/-- `ComplianceScanner._check_ada_compliance`. -/
def check_ada_compliance (doc : Doc) : List Violation :=
  -- 1. Keyboard Navigation Check
  let interactive_elements :=
    findAllTags doc ["button", "a", "input", "select", "textarea"]
  let missing_keyboard_access :=
    interactive_elements.filterMap (fun e =>
      if e.tag = "a" && !pyTruthy (e.get "href") then some e.tag
      else if e.get "tabindex" = some "-1" then some e.tag
      else none)
  let v1 : List Violation :=
    if missing_keyboard_access ≠ [] then
      [{ type := "ada_keyboard_access", severity := "high",
         element := pyStrNat missing_keyboard_access.length ++ " interactive elements",
         description := "Interactive elements not accessible via keyboard",
         regulation := "ADA Title III - Keyboard Accessibility",
         recommendation := "Ensure all interactive elements are keyboard accessible" }]
    else []
  -- 2. ARIA Landmarks Check
  let landmarks := findAllTags doc ["nav", "main", "header", "footer", "aside"]
  let landmark_roles :=
    ((elemOccs doc).filter (fun o =>
      match o.2.get "role" with
      | some r =>
        pyIn "navigation" r || pyIn "main" r || pyIn "banner" r ||
          pyIn "contentinfo" r || pyIn "complementary" r
      | none => false)).map (fun o => o.2)
  let total_landmarks := landmarks.length + landmark_roles.length
  let v2 : List Violation :=
    if total_landmarks < 2 then
      [{ type := "ada_missing_landmarks", severity := "medium",
         element := "document structure",
         description := "Insufficient ARIA landmarks for screen reader navigation",
         regulation := "ADA Title III - Screen Reader Accessibility",
         recommendation := "Add semantic HTML5 elements or ARIA landmark roles" }]
    else []
  v1 ++ v2

/-- `ComplianceScanner._check_security_compliance` for a well-typed
(string) `url`. -/
def check_security_compliance (url : String) (doc : Doc) : List Violation :=
  -- 1. HTTPS Check
  let v1 : List Violation :=
    if !pyStartswith "https://" url then
      [{ type := "security_no_https", severity := "critical",
         element := "protocol",
         description := "Website not served over HTTPS",
         regulation := "Data Protection - Encryption in Transit",
         recommendation := "Implement SSL/TLS certificate and redirect HTTP to HTTPS" }]
    else []
  -- 2. External Scripts Check
  let scripts := (findAllTag doc "script").filter (fun s => (s.get "src").isSome)
  let external_scripts :=
    scripts.filterMap (fun script =>
      match script.get "src" with
      | some src =>
        if src ≠ "" && (pyStartswith "http" src && !pyStartswith url src) then
          some src
        else none
      | none => none)
  let v2 : List Violation :=
    if external_scripts ≠ [] then
      [{ type := "security_external_scripts", severity := "medium",
         element := pyStrNat external_scripts.length ++ " external scripts",
         description := "External scripts may pose security risks",
         regulation := "Security Best Practices",
         recommendation := "Review and validate all external script sources" }]
    else []
  v1 ++ v2

/-- `ComplianceScanner._check_seo_compliance`. -/
def check_seo_compliance (doc : Doc) : List Violation :=
  -- 1. Meta Description Check
  let meta_desc :=
    ((findAllTag doc "meta").filter (fun m => m.get "name" = some "description")).head?
  let v1 : List Violation :=
    if (match meta_desc with
        | none => true
        | some m => !pyTruthy (m.get "content")) then
      [{ type := "seo_missing_meta_desc", severity := "low",
         element := "meta tags",
         description := "Missing meta description",
         regulation := "SEO Best Practices",
         recommendation := "Add descriptive meta description (150-160 characters)" }]
    else []
  -- 2. Title Tag Check
  let title := (findAllTag doc "title").head?
  let v2 : List Violation :=
    if (match title with
        | none => true
        | some t => t.getTextStrip = "") then
      [{ type := "seo_missing_title", severity := "medium",
         element := "title tag",
         description := "Missing or empty title tag",
         regulation := "SEO Best Practices",
         recommendation := "Add descriptive page title" }]
    else []
  v1 ++ v2

/-- `ComplianceScanner.scan_website` for a well-typed (string) `url`: the
five check groups run in declaration order, each appending its violations
to the freshly reset `self.violations` list, which is returned. -/
def scan_website (url : String) (doc : Doc) : List Violation :=
  check_gdpr_compliance doc ++ check_wcag_compliance doc ++
    check_ada_compliance doc ++ check_security_compliance url doc ++
    check_seo_compliance doc

/-- `scan_website` with the scanner object's `self.violations` state made
explicit: the method overwrites the state with `[]` before scanning, so the
state left by a previous call is discarded; the new state and the returned
list coincide. -/
def scan_website_run (url : String) (doc : Doc) (_violations_state : List Violation) :
    List Violation × List Violation :=
  let out := scan_website url doc
  (out, out)

/-- The CPython error raised by `None.startswith(...)`. -/
def noneStartswithErr : String :=
  "AttributeError: 'NoneType' object has no attribute 'startswith'"

/-- `ComplianceScanner._check_security_compliance` under Python's dynamic
typing of `url`: the annotation `url: str` is not enforced, and the body's
first use of `url` is the method call `url.startswith('https://')`, which
raises `AttributeError` when `url` is `None`. -/
def check_security_complianceE (url : Option String) (doc : Doc) :
    Except String (List Violation) :=
  match url with
  | none => .error noneStartswithErr
  | some u => .ok (check_security_compliance u doc)

/-- `ComplianceScanner.scan_website` under Python exception semantics:
the five check groups run sequentially with no `try`/`except` anywhere in
the method, so an exception raised inside a check propagates out of
`scan_website`; the checks after the raising one never run and no warning
is recorded.  Only the security check can raise (through the unchecked
`url` argument); the others are total. -/
def scan_websiteE (url : Option String) (doc : Doc) :
    Except String (List Violation) := do
  let v1 := check_gdpr_compliance doc
  let v2 := check_wcag_compliance doc
  let v3 := check_ada_compliance doc
  let v4 ← check_security_complianceE url doc
  let v5 := check_seo_compliance doc
  pure (v1 ++ v2 ++ v3 ++ v4 ++ v5)

/-- Category index of a violation, following the prefix dispatch of
`ComplianceScanner.get_violations_by_category` (gdpr, wcag, ada, security,
seo) — also the declaration order of the five check groups in
`scan_website`. -/
def violationCategoryIdx (v : Violation) : Nat :=
  if pyStartswith "gdpr" v.type then 0
  else if pyStartswith "wcag" v.type then 1
  else if pyStartswith "ada" v.type then 2
  else if pyStartswith "security" v.type then 3
  else 4


/-! ## Issue mapper (`issue_mapper.py`) -/

structure MappedIssue where
  element_type : String
  element_xpath : String
  element_selector : String
  issue_type : String
  regulation_reference : String
  severity_level : String
  business_impact : String
  fix_priority : Nat
  estimated_fix_time : String
deriving DecidableEq

/-- `IssueMapper.business_impact_levels`. -/
def business_impact_levels : List (String × String) :=
  [("critical", "Legal liability, potential lawsuits, immediate compliance action required"),
   ("high", "Significant user accessibility barriers, compliance violations"),
   ("medium", "User experience issues, potential compliance gaps"),
   ("low", "Minor usability issues, best practice improvements")]

/-- Python `dict.get(key, default)` on an association list. -/
def dictGetD (d : List (String × String)) (key default : String) : String :=
  match d.find? (fun kv => kv.1 = key) with
  | some kv => kv.2
  | none => default

/-- Python `d[key]` where the key is known to be present (the four
severity levels). -/
def dictGet (d : List (String × String)) (key : String) : String :=
  dictGetD d key ""

mutual
/-- Structural equality of nodes, standing in for CPython object identity
in `list.index` (identical to identity whenever a parent has no two
structurally equal children, and in particular on every concrete document
used below). -/
def Node.beq : Node → Node → Bool
  | .txt a, .txt b => a == b
  | .el t1 a1 c1, .el t2 a2 c2 => t1 == t2 && a1 == a2 && Node.beqList c1 c2
  | .txt _, .el _ _ _ => false
  | .el _ _ _, .txt _ => false
/-- Structural equality on node lists. -/
def Node.beqList : List Node → List Node → Bool
  | [], [] => true
  | a :: as', b :: bs' => Node.beq a b && Node.beqList as' bs'
  | [], _ :: _ => false
  | _ :: _, [] => false
end

def Node.childrenOf : Node → List Node
  | .el _ _ cs => cs
  | .txt _ => []

/-- Python `'.'.join(parts)`. -/
def joinDot : List String → String
  | [] => ""
  | [s] => s
  | s :: rest => s ++ "." ++ joinDot rest

/-- One step of `IssueMapper._get_element_xpath`: the XPath component of
`child` within direct parent `parent` (`parent.find_all(child.name,
recursive=False)`, 1-based index when the tag occurs more than once). -/
def xpathComponent (parent child : Node) : String :=
  let siblings := parent.childrenOf.filter (fun s => s.isElem && s.tag = child.tag)
  if siblings.length > 1 then
    let index := ((siblings.findIdx? (fun s => Node.beq s child)).getD 0) + 1
    child.tag ++ "[" ++ pyStrNat index ++ "]"
  else
    child.tag

/-- Join XPath components with `/`. -/
def joinSlash : List String → String
  | [] => ""
  | [s] => s
  | s :: rest => s ++ "/" ++ joinSlash rest

/-- `IssueMapper._get_element_xpath` on an occurrence: the source walks
`child.parents`, breaking at the `[document]` root, collecting one
component per ancestor level (so the component of the topmost element,
whose parent is the document, is never collected), reverses and joins. -/
def get_element_xpath (o : Occ) : String :=
  let childChain := o.2 :: o.1
  let components := (childChain.zip o.1).map (fun cp => xpathComponent cp.2 cp.1)
  "//" ++ joinSlash components.reverse

/-- `IssueMapper._get_css_selector`. -/
def get_css_selector (n : Node) : String :=
  if pyTruthy (n.get "id") then
    "#" ++ (n.get "id").getD ""
  else if pyTruthy (n.get "class") then
    let classes := joinDot (pySplitWs ((n.get "class").getD ""))
    n.tag ++ "." ++ classes
  else
    n.tag

/-- `IssueMapper._map_cookie_consent_issue`. -/
def map_cookie_consent_issue (_doc : Doc) (_v : Violation) : MappedIssue :=
  { element_type := "Cookie Consent Banner"
    element_xpath := "//body"
    element_selector := "body"
    issue_type := "Missing GDPR-compliant cookie consent mechanism"
    regulation_reference := "GDPR Article 7 - Conditions for consent"
    severity_level := "critical"
    business_impact := dictGet business_impact_levels "critical"
    fix_priority := 1
    estimated_fix_time := "1-2 days" }

/-- `IssueMapper._map_alt_text_issues`.  The source computes
`soup.find_all('img', alt='')` (images whose `alt` attribute is the empty
string) extended with `soup.find_all('img', <lambda>)`; BeautifulSoup
treats a non-dict second positional argument as a *class* filter, and the
lambda returns `True` exactly for a missing class attribute, so the second
list is the images with no `class` attribute. -/
def map_alt_text_issues (doc : Doc) (_v : Violation) : MappedIssue :=
  let images_without_alt :=
    (findAllTagOcc doc "img").filter (fun o => o.2.get "alt" = some "") ++
    (findAllTagOcc doc "img").filter (fun o => (o.2.get "class").isNone)
  let first_image :=
    match images_without_alt.head? with
    | some o => some o
    | none => (findAllTagOcc doc "img").head?
  let xpath :=
    match first_image with
    | some o => get_element_xpath o
    | none => "//img[not(@alt)]"
  let selector :=
    match first_image with
    | some o => get_css_selector o.2
    | none => "img:not([alt])"
  { element_type := "Image Elements"
    element_xpath := xpath
    element_selector := selector
    issue_type := "Missing alternative text for " ++
      pyStrNat images_without_alt.length ++ " images"
    regulation_reference := "WCAG 2.1 Success Criterion 1.1.1 - Non-text Content"
    severity_level := "high"
    business_impact := dictGet business_impact_levels "high"
    fix_priority := 2
    estimated_fix_time := "2-4 hours" }

/-- `IssueMapper._map_form_label_issues` (unlike the scanner's check, this
re-derivation does not look at `aria-labelledby`). -/
def map_form_label_issues (doc : Doc) (_v : Violation) : MappedIssue :=
  let inputs :=
    (findAllTagOcc doc "input").filter (fun o =>
      match o.2.get "type" with
      | some t => labelled_input_types.contains t
      | none => false)
  let labels := findAllTag doc "label"
  let unlabeled_inputs :=
    inputs.filter (fun o =>
      let has_label :=
        match o.2.get "id" with
        | some input_id => labels.any (fun l => l.get "for" = some input_id)
        | none => false
      !has_label && !pyTruthy (o.2.get "aria-label"))
  let first_input :=
    match unlabeled_inputs.head? with
    | some o => some o
    | none => (findAllTagOcc doc "input").head?
  let xpath :=
    match first_input with
    | some o => get_element_xpath o
    | none => "//input[not(@aria-label) and not(@id) or @id and not(//label[@for=current()/@id])]"
  let selector :=
    match first_input with
    | some o => get_css_selector o.2
    | none => "input:not([aria-label]):not([id]), input[id]:not([id]:has(~ label[for]))"
  { element_type := "Form Input Elements"
    element_xpath := xpath
    element_selector := selector
    issue_type := "Form inputs without proper labels: " ++
      pyStrNat unlabeled_inputs.length ++ " violations"
    regulation_reference := "WCAG 2.1 Success Criterion 1.3.1 - Info and Relationships"
    severity_level := "high"
    business_impact := dictGet business_impact_levels "high"
    fix_priority := 3
    estimated_fix_time := "1-3 hours" }

/-- `IssueMapper._map_keyboard_access_issues`. -/
def map_keyboard_access_issues (_doc : Doc) (_v : Violation) : MappedIssue :=
  { element_type := "Interactive Elements"
    element_xpath := "//a[not(@href)] | //*[@tabindex='-1']"
    element_selector := "a:not([href]), [tabindex='-1']"
    issue_type := "Interactive elements not accessible via keyboard"
    regulation_reference := "WCAG 2.1 Success Criterion 2.1.1 - Keyboard"
    severity_level := "high"
    business_impact := dictGet business_impact_levels "high"
    fix_priority := 4
    estimated_fix_time := "2-6 hours" }

/-- `IssueMapper._map_security_issues`. -/
def map_security_issues (_doc : Doc) (_v : Violation) : MappedIssue :=
  { element_type := "Protocol Security"
    element_xpath := "//html"
    element_selector := "html"
    issue_type := "Website not served over HTTPS"
    regulation_reference := "GDPR Article 32 - Security of processing"
    severity_level := "critical"
    business_impact := dictGet business_impact_levels "critical"
    fix_priority := 1
    estimated_fix_time := "1 day (SSL certificate setup)" }

/-- `IssueMapper._map_generic_issue`. -/
def map_generic_issue (_doc : Doc) (v : Violation) : MappedIssue :=
  { element_type := "General Compliance"
    element_xpath := "//body"
    element_selector := "body"
    issue_type := v.description
    regulation_reference := v.regulation
    severity_level := v.severity
    business_impact :=
      dictGetD business_impact_levels v.severity
        "Compliance issue may affect user experience"
    fix_priority := 5
    estimated_fix_time := "Variable" }

/-- `IssueMapper._create_mapped_issue`: substring dispatch on the
violation's `type` tag. -/
def create_mapped_issue (doc : Doc) (v : Violation) : MappedIssue :=
  let issue_type := v.type
  if pyIn "gdpr_cookie" issue_type then map_cookie_consent_issue doc v
  else if pyIn "wcag_missing_alt" issue_type then map_alt_text_issues doc v
  else if pyIn "wcag_unlabeled_inputs" issue_type then map_form_label_issues doc v
  else if pyIn "ada_keyboard" issue_type then map_keyboard_access_issues doc v
  else if pyIn "security_no_https" issue_type then map_security_issues doc v
  else map_generic_issue doc v

/-- `IssueMapper.map_violations_to_elements`: map every violation
(`_create_mapped_issue` never returns a falsy value, so every violation
contributes), then `mapped_issues.sort(key=lambda x: x.fix_priority)` —
Python's sort is stable, embedded as Mathlib's stable `insertionSort`. -/
def map_violations_to_elements (doc : Doc) (violations : List Violation) :
    List MappedIssue :=
  let mapped_issues := violations.map (create_mapped_issue doc)
  mapped_issues.insertionSort (fun a b => a.fix_priority ≤ b.fix_priority)

/-- `IssueMapper.create_remediation_priority_matrix`: partition by
severity level, preserving order (one pass appending to four buckets). -/
structure PriorityMatrix where
  critical_immediate : List MappedIssue
  high_priority : List MappedIssue
  medium_priority : List MappedIssue
  low_priority : List MappedIssue
deriving DecidableEq

def create_remediation_priority_matrix (mapped_issues : List MappedIssue) :
    PriorityMatrix :=
  { critical_immediate := mapped_issues.filter (fun i => i.severity_level = "critical")
    high_priority := mapped_issues.filter (fun i => i.severity_level = "high")
    medium_priority := mapped_issues.filter (fun i => i.severity_level = "medium")
    low_priority := mapped_issues.filter (fun i =>
      i.severity_level ≠ "critical" ∧ i.severity_level ≠ "high" ∧
        i.severity_level ≠ "medium") }

/-- The severity tally built by `generate_compliance_report`. -/
structure SevCounts where
  critical : Nat
  high : Nat
  medium : Nat
  low : Nat
deriving DecidableEq

/-- The loop `for issue in mapped_issues:
severity_counts[issue.severity_level] += 1` — a `KeyError` (modelled as
`Except.error` carrying the unknown key) for any severity level outside
the four initialised keys. -/
def tally_severities : List MappedIssue → SevCounts → Except String SevCounts
  | [], acc => .ok acc
  | i :: is', acc =>
    if i.severity_level = "critical" then
      tally_severities is' { acc with critical := acc.critical + 1 }
    else if i.severity_level = "high" then
      tally_severities is' { acc with high := acc.high + 1 }
    else if i.severity_level = "medium" then
      tally_severities is' { acc with medium := acc.medium + 1 }
    else if i.severity_level = "low" then
      tally_severities is' { acc with low := acc.low + 1 }
    else
      .error ("KeyError: " ++ i.severity_level)

/-- `IssueMapper._calculate_total_fix_time`. -/
def calculate_total_fix_time (mapped_issues : List MappedIssue) : String :=
  let critical_issues := (mapped_issues.filter (fun i => i.severity_level = "critical")).length
  let high_issues := (mapped_issues.filter (fun i => i.severity_level = "high")).length
  let medium_issues := (mapped_issues.filter (fun i => i.severity_level = "medium")).length
  let low_issues := (mapped_issues.filter (fun i => i.severity_level = "low")).length
  let total_hours := critical_issues * 8 + high_issues * 4 + medium_issues * 2 + low_issues * 1
  if total_hours ≤ 8 then pyStrNat total_hours ++ " hours"
  else if total_hours ≤ 40 then pyStrNat (total_hours / 8) ++ " days"
  else pyStrNat (total_hours / 40) ++ " weeks"

structure RegCoverage where
  gdpr : Nat
  wcag : Nat
  ada : Nat
deriving DecidableEq

structure ComplianceReport where
  total_issues : Nat
  severity_breakdown : SevCounts
  compliance_score : Int
  regulation_coverage : RegCoverage
  estimated_fix_time : String
  priority_matrix : PriorityMatrix
deriving DecidableEq

/-- Penalty weights of `generate_compliance_report`. -/
def critical_penalty : Int := 30
def high_penalty : Int := 20
def medium_penalty : Int := 10
def low_penalty : Int := 5

/-- `IssueMapper.generate_compliance_report`.  The severity tally can
raise `KeyError` for a severity outside {critical, high, medium, low};
otherwise the compliance score is `max(0, 100 - total_penalty)`. -/
def generate_compliance_report (mapped_issues : List MappedIssue) :
    Except String ComplianceReport := do
  let severity_counts ← tally_severities mapped_issues ⟨0, 0, 0, 0⟩
  let max_possible_score : Int := 100
  let total_penalty : Int :=
    (severity_counts.critical : Int) * critical_penalty +
    (severity_counts.high : Int) * high_penalty +
    (severity_counts.medium : Int) * medium_penalty +
    (severity_counts.low : Int) * low_penalty
  let compliance_score := max 0 (max_possible_score - total_penalty)
  pure
    { total_issues := mapped_issues.length
      severity_breakdown := severity_counts
      compliance_score := compliance_score
      regulation_coverage :=
        { gdpr := (mapped_issues.filter (fun i => pyIn "GDPR" i.regulation_reference)).length
          wcag := (mapped_issues.filter (fun i => pyIn "WCAG" i.regulation_reference)).length
          ada := (mapped_issues.filter (fun i => pyIn "ADA" i.regulation_reference)).length }
      estimated_fix_time := calculate_total_fix_time mapped_issues
      priority_matrix := create_remediation_priority_matrix mapped_issues }


/-! ## Remediation advisor (`remediation_advisor.py`)

The `code_example` fields of the fix templates are multi-line HTML/JS
snippets never inspected by any code path (only `issue_type` and
`estimated_time` are read); they are abbreviated here to their first
line. -/

structure RemediationFix where
  issue_type : String
  fix_description : String
  code_example : String
  implementation_steps : List String
  testing_instructions : String
  estimated_time : String
deriving DecidableEq

/-- `RemediationAdvisor._generate_cookie_banner_fix`. -/
def generate_cookie_banner_fix : RemediationFix :=
  { issue_type := "GDPR Cookie Consent Banner"
    fix_description := "Implement GDPR-compliant cookie consent banner with accept/reject options"
    code_example := "<!-- Add to your HTML head -->"
    implementation_steps :=
      ["Add cookie consent library to your HTML",
       "Configure consent categories (necessary, analytics, marketing)",
       "Customize banner text and styling",
       "Implement cookie setting/getting functions",
       "Update privacy policy with cookie information",
       "Test accept/reject functionality"]
    testing_instructions := "Test banner appearance, accept/reject functionality, and verify cookies are set correctly"
    estimated_time := "4 hours" }

/-- `RemediationAdvisor._generate_alt_text_fix`. -/
def generate_alt_text_fix : RemediationFix :=
  { issue_type := "Image Alt Text"
    fix_description := "Add descriptive alt text to all images for screen reader accessibility"
    code_example := "<!-- Before -->"
    implementation_steps :=
      ["Audit all images on the website",
       "Identify decorative vs informative images",
       "Write descriptive alt text for informative images",
       "Use empty alt=\"\" for decorative images",
       "Add longdesc for complex images like charts",
       "Test with screen reader software"]
    testing_instructions := "Use NVDA or JAWS screen reader to verify alt text is read correctly"
    estimated_time := "3 hours" }

/-- `RemediationAdvisor._generate_form_label_fix`. -/
def generate_form_label_fix : RemediationFix :=
  { issue_type := "Form Input Labels"
    fix_description := "Add proper labels to all form inputs for accessibility"
    code_example := "<!-- Method 1: Explicit labels -->"
    implementation_steps :=
      ["Identify all form inputs without labels",
       "Add explicit labels using for/id attributes",
       "Use aria-label for inputs without visible labels",
       "Group related inputs with fieldset/legend",
       "Add required field indicators",
       "Test tab navigation and screen reader compatibility"]
    testing_instructions := "Navigate form using only keyboard and verify all fields are properly announced by screen readers"
    estimated_time := "2 hours" }

/-- `RemediationAdvisor._generate_keyboard_access_fix`. -/
def generate_keyboard_access_fix : RemediationFix :=
  { issue_type := "Keyboard Accessibility"
    fix_description := "Ensure all interactive elements are accessible via keyboard navigation"
    code_example := "<!-- Add proper href to links -->"
    implementation_steps :=
      ["Add skip navigation links",
       "Ensure all interactive elements have proper href or tabindex",
       "Implement keyboard event handlers for custom elements",
       "Add visible focus indicators",
       "Test complete keyboard navigation flow",
       "Verify logical tab order"]
    testing_instructions := "Navigate entire site using only Tab, Enter, Space, and Arrow keys"
    estimated_time := "4 hours" }

/-- `RemediationAdvisor._generate_https_fix`. -/
def generate_https_fix : RemediationFix :=
  { issue_type := "HTTPS Security"
    fix_description := "Implement HTTPS with proper SSL certificate"
    code_example := "<!-- Server configuration (Apache) -->"
    implementation_steps :=
      ["Obtain SSL certificate from trusted CA or Let's Encrypt",
       "Install certificate on web server",
       "Configure server to redirect HTTP to HTTPS",
       "Update all internal links to use HTTPS",
       "Add security headers (HSTS, CSP)",
       "Test certificate installation with SSL checker"]
    testing_instructions := "Use SSL Labs SSL Test to verify certificate installation and security grade"
    estimated_time := "1 day" }

/-- `RemediationAdvisor._generate_meta_tags_fix`. -/
def generate_meta_tags_fix : RemediationFix :=
  { issue_type := "SEO Meta Tags"
    fix_description := "Add proper meta tags for SEO optimization"
    code_example := "<!-- Essential meta tags -->"
    implementation_steps :=
      ["Add unique, descriptive title tags to all pages",
       "Write compelling meta descriptions under 160 characters",
       "Implement Open Graph tags for social sharing",
       "Add Twitter Card meta tags",
       "Include canonical URLs to prevent duplicate content",
       "Test social media preview appearance"]
    testing_instructions := "Use Facebook Sharing Debugger and Twitter Card Validator to test social media previews"
    estimated_time := "3 hours" }

/-- The keys of `RemediationAdvisor.fix_templates`, in insertion order. -/
def fix_template_patterns : List String :=
  ["gdpr_cookie_banner", "wcag_missing_alt", "wcag_unlabeled_inputs",
   "ada_keyboard_access", "security_no_https", "seo_missing_meta"]

/-- The generic fallback fix of `_generate_specific_fix` for unknown
issue types. -/
def generic_fix (issue_type : String) : RemediationFix :=
  { issue_type := issue_type
    fix_description := "General compliance improvement needed"
    code_example := "<!-- Review and update this element for compliance -->"
    implementation_steps :=
      ["Review issue details", "Apply appropriate fix", "Test implementation"]
    testing_instructions := "Verify compliance using accessibility testing tools"
    estimated_time := "2 hours" }

/-- `RemediationAdvisor._generate_specific_fix`: first template whose key
is a substring of `issue_type` (dict iteration order = insertion order),
else the generic fix.  The `issue` argument is never read by any
template. -/
def generate_specific_fix (issue_type : String) : RemediationFix :=
  if pyIn "gdpr_cookie_banner" issue_type then generate_cookie_banner_fix
  else if pyIn "wcag_missing_alt" issue_type then generate_alt_text_fix
  else if pyIn "wcag_unlabeled_inputs" issue_type then generate_form_label_fix
  else if pyIn "ada_keyboard_access" issue_type then generate_keyboard_access_fix
  else if pyIn "security_no_https" issue_type then generate_https_fix
  else if pyIn "seo_missing_meta" issue_type then generate_meta_tags_fix
  else generic_fix issue_type

/-- The per-fix contribution to `total_estimated_time` in
`generate_remediation_plan`: hours parsed from the fix's
`estimated_time` string ("N hours" contributes N with fallback 2,
"N days" contributes N*8 with fallback 8, anything else contributes
nothing).  `time_str.split()[0]` cannot raise here because every template
effort string is non-empty (and if it did contain 'hour' the word itself
would be a token). -/
def effortContribution (time_str : String) : Nat :=
  let tok0 := (pySplitWs time_str).headD ""
  if pyIn "hour" time_str then
    if pyIsDigit tok0 then pyIntOfDigits tok0 else 2
  else if pyIn "day" time_str then
    (if pyIsDigit tok0 then pyIntOfDigits tok0 else 1) * 8
  else 0

/-- `RemediationAdvisor._prioritize_fixes`. -/
def prioritize_fixes (fixes : List RemediationFix) : List String :=
  let priority_order : List String :=
    ["GDPR Cookie Consent Banner", "HTTPS Security", "Image Alt Text",
     "Form Input Labels", "Keyboard Accessibility", "SEO Meta Tags"]
  let prioritized :=
    priority_order.foldl (fun acc priority_type =>
      fixes.foldl (fun acc2 fix =>
        if pyIn priority_type fix.issue_type && !acc2.contains fix.issue_type then
          acc2 ++ [fix.issue_type]
        else acc2) acc) []
  fixes.foldl (fun acc fix =>
    if !acc.contains fix.issue_type then acc ++ [fix.issue_type] else acc)
    prioritized

structure Roadmap where
  phase_1_critical : List String
  phase_2_high : List String
  phase_3_medium : List String
deriving DecidableEq

/-- `RemediationAdvisor._create_implementation_roadmap` (a single ordered
pass appending to three buckets = order-preserving filters). -/
def create_implementation_roadmap (fixes : List RemediationFix) : Roadmap :=
  let critical_fixes : List String := ["GDPR Cookie Consent Banner", "HTTPS Security"]
  let high_fixes : List String := ["Image Alt Text", "Form Input Labels", "Keyboard Accessibility"]
  let isCrit := fun (fix : RemediationFix) =>
    critical_fixes.any (fun c => pyIn c fix.issue_type)
  let isHigh := fun (fix : RemediationFix) =>
    high_fixes.any (fun h => pyIn h fix.issue_type)
  { phase_1_critical := (fixes.filter (fun f => isCrit f)).map (fun f => f.issue_type)
    phase_2_high := (fixes.filter (fun f => !isCrit f && isHigh f)).map (fun f => f.issue_type)
    phase_3_medium := (fixes.filter (fun f => !isCrit f && !isHigh f)).map (fun f => f.issue_type) }

structure RemediationPlan where
  fixes : List RemediationFix
  total_fixes : Nat
  estimated_total_time : String
  priority_order : List String
  implementation_roadmap : Roadmap
deriving DecidableEq

/-- `RemediationAdvisor.generate_remediation_plan`: one fix per mapped
issue (`_generate_specific_fix` never returns a falsy value), summing the
per-fix hour estimates. -/
def generate_remediation_plan (mapped_issues : List MappedIssue) : RemediationPlan :=
  let fixes := mapped_issues.map (fun issue => generate_specific_fix issue.issue_type)
  let total_estimated_time :=
    fixes.foldl (fun acc fix => acc + effortContribution fix.estimated_time) 0
  { fixes := fixes
    total_fixes := fixes.length
    estimated_total_time := pyStrNat total_estimated_time ++ " hours"
    priority_order := prioritize_fixes fixes
    implementation_roadmap := create_implementation_roadmap fixes }


/-! ## JSON values and `json.loads` (used by the strict tier of the
narrative extractors)

`jsonLoads` models Python's `json.loads` restricted to the JSON fragment
with null, booleans, integers, strings (with the single-character
escapes), arrays and objects; floating-point literals are rejected.  A
successful parse requires the whole input (up to trailing whitespace) to
be consumed, as in Python. -/

/-- The opening and closing brace characters. -/
def lbraceChar : Char := Char.ofNat 123
def rbraceChar : Char := Char.ofNat 125

inductive Json where
  | null
  | jbool (b : Bool)
  | jint (n : Int)
  | jstr (s : String)
  | jarr (xs : List Json)
  | jobj (fields : List (String × Json))

def skipWsChars (s : List Char) : List Char :=
  s.dropWhile Char.isWhitespace

/-- Decode one escape character of a JSON string literal. -/
def jsonEscape (e : Char) : Option Char :=
  if e = '"' then some '"'
  else if e = '\\' then some '\\'
  else if e = '/' then some '/'
  else if e = 'n' then some '\n'
  else if e = 't' then some '\t'
  else if e = 'r' then some '\r'
  else if e = 'b' then some (Char.ofNat 8)
  else if e = 'f' then some (Char.ofNat 12)
  else none

/-- Parse the body of a JSON string literal (after the opening quote),
returning the decoded characters and the rest of the input. -/
def parseStrBody : List Char → Option (List Char × List Char)
  | [] => none
  | c :: rest =>
    if c = '"' then some ([], rest)
    else if c = '\\' then
      match rest with
      | [] => none
      | e :: rest2 =>
        match jsonEscape e with
        | none => none
        | some d => (parseStrBody rest2).map (fun p => (d :: p.1, p.2))
    else (parseStrBody rest).map (fun p => (c :: p.1, p.2))

/-- Parse a JSON integer literal; a following `.`, `e` or `E` (a float,
which this model does not support) is rejected. -/
def parseIntLit (s : List Char) : Option (Int × List Char) :=
  let (sign, s1) :=
    match s with
    | '-' :: rest => ((-1 : Int), rest)
    | _ => ((1 : Int), s)
  let digits := s1.takeWhile Char.isDigit
  let rest := s1.dropWhile Char.isDigit
  if digits = [] then none
  else
    match rest with
    | '.' :: _ => none
    | 'e' :: _ => none
    | 'E' :: _ => none
    | _ =>
      some (sign * (digits.foldl (fun a c => 10 * a + (c.toNat - 48)) 0 : Nat), rest)

mutual
/-- Parse one JSON value (fuel-driven so that the kernel can evaluate). -/
def parseValue : Nat → List Char → Option (Json × List Char)
  | 0, _ => none
  | fuel + 1, s =>
    let s := skipWsChars s
    match s with
    | [] => none
    | c :: rest =>
      if c = '"' then
        (parseStrBody rest).map (fun p => (Json.jstr ⟨p.1⟩, p.2))
      else if c = lbraceChar then
        let r := skipWsChars rest
        match r with
        | c2 :: r2 =>
          if c2 = rbraceChar then some (Json.jobj [], r2)
          else
            match parseObjMembers fuel r with
            | some (fs, r3) => some (Json.jobj fs, r3)
            | none => none
        | [] => none
      else if c = '[' then
        let r := skipWsChars rest
        match r with
        | ']' :: r2 => some (Json.jarr [], r2)
        | _ =>
          match parseArrayItems fuel r with
          | some (xs, r3) => some (Json.jarr xs, r3)
          | none => none
      else if ['n', 'u', 'l', 'l'].isPrefixOf s then some (Json.null, s.drop 4)
      else if ['t', 'r', 'u', 'e'].isPrefixOf s then some (Json.jbool true, s.drop 4)
      else if ['f', 'a', 'l', 's', 'e'].isPrefixOf s then some (Json.jbool false, s.drop 5)
      else
        (parseIntLit s).map (fun p => (Json.jint p.1, p.2))
/-- Parse one or more comma-separated array items up to `]`. -/
def parseArrayItems : Nat → List Char → Option (List Json × List Char)
  | 0, _ => none
  | fuel + 1, s =>
    match parseValue fuel s with
    | none => none
    | some (v, r) =>
      match skipWsChars r with
      | ']' :: r2 => some ([v], r2)
      | ',' :: r2 =>
        match parseArrayItems fuel r2 with
        | some (vs, r3) => some (v :: vs, r3)
        | none => none
      | _ => none
/-- Parse one or more `"key": value` object members up to the closing
brace. -/
def parseObjMembers : Nat → List Char → Option (List (String × Json) × List Char)
  | 0, _ => none
  | fuel + 1, s =>
    match skipWsChars s with
    | '"' :: r =>
      match parseStrBody r with
      | none => none
      | some (key, r2) =>
        match skipWsChars r2 with
        | ':' :: r3 =>
          match parseValue fuel r3 with
          | none => none
          | some (v, r4) =>
            match skipWsChars r4 with
            | ',' :: r5 =>
              match parseObjMembers fuel r5 with
              | some (fs, r6) => some ((⟨key⟩, v) :: fs, r6)
              | none => none
            | c :: r5 =>
              if c = rbraceChar then some ([(⟨key⟩, v)], r5) else none
            | [] => none
        | _ => none
    | _ => none
end

/-- Python `json.loads` (on the supported fragment): the whole input must
be one value followed only by whitespace. -/
def jsonLoads (s : String) : Option Json :=
  match parseValue (s.data.length + 1) s.data with
  | some (j, rest) => if skipWsChars rest = [] then some j else none
  | none => none

/-- `re.search(r'\x7b.*\x7d', text, re.DOTALL)`: with the greedy dot-all
body, a match exists iff some `\x7d` follows the first `\x7b`, and the
matched span runs from the first opening brace to the last closing
brace. -/
def regexBraceSpan (s : String) : Option String :=
  let cs := s.data
  match cs.findIdx? (fun c => c = lbraceChar) with
  | none => none
  | some i =>
    match cs.reverse.findIdx? (fun c => c = rbraceChar) with
    | none => none
    | some jr =>
      let j := cs.length - 1 - jr
      if i < j then some ⟨(cs.drop i).take (j - i + 1)⟩ else none

/-- Object-field lookup on a JSON value. -/
def Json.getField? : Json → String → Option Json
  | .jobj fs, k => (fs.find? (fun kv => kv.1 = k)).map (fun kv => kv.2)
  | _, _ => none

/-- Object-field lookup returning the field only when it is a string. -/
def Json.getStr? (j : Json) (k : String) : Option String :=
  match j.getField? k with
  | some (.jstr s) => some s
  | _ => none

/-! ## Narrative insight extractors (`multi_agent_auditor.py`)

The LLM call `self.llm.invoke(prompt)` is the only fallible operation
inside the extractors' `try` blocks; its outcome is passed as an explicit
`Except String String` oracle argument (`.error` = the call raised, and
the `except Exception` branch runs).  The prompt string built from the
crew text is consumed only by the LLM and is not modelled. -/

/-- The violation-report dictionary built by `_parse_violations_from_text`
and by the `except` branch of `_extract_violations` (`by_category` and
`severity_breakdown` flattened into fields, in source key order). -/
structure ViolationsRecord where
  total_violations : Nat
  gdpr : List String
  accessibility : List String
  wcag : List String
  seo : List String
  security : List String
  critical : Nat
  high : Nat
  medium : Nat
  low : Nat
  raw_findings : String
deriving DecidableEq

def violation_indicator_words : List String :=
  ["violation", "issue", "error", "missing", "invalid", "non-compliant"]

def gdpr_keywords : List String := ["gdpr", "privacy", "cookie", "consent", "data protection"]
def accessibility_keywords : List String := ["accessibility", "screen reader", "keyboard", "aria"]
def wcag_keywords : List String := ["wcag", "contrast", "alt text", "heading", "color"]
def seo_keywords : List String := ["seo", "meta", "title", "description", "robots"]
def security_keywords : List String := ["security", "ssl", "https", "certificate", "encryption"]

def critical_sev_keywords : List String := ["critical", "severe", "major"]
def high_sev_keywords : List String := ["high", "important", "urgent"]
def medium_sev_keywords : List String := ["medium", "moderate"]
def low_sev_keywords : List String := ["low", "minor", "suggestion"]

/-- Severity tally of one categorised sentence: first matching severity
keyword set, `medium` when none matches (the loop's `else` clause). -/
def bumpSeverity (slower : String) (r : ViolationsRecord) : ViolationsRecord :=
  if critical_sev_keywords.any (fun k => pyIn k slower) then
    { r with critical := r.critical + 1 }
  else if high_sev_keywords.any (fun k => pyIn k slower) then
    { r with high := r.high + 1 }
  else if medium_sev_keywords.any (fun k => pyIn k slower) then
    { r with medium := r.medium + 1 }
  else if low_sev_keywords.any (fun k => pyIn k slower) then
    { r with low := r.low + 1 }
  else
    { r with medium := r.medium + 1 }

/-- The per-sentence body of the `_parse_violations_from_text` loop:
strip, skip short sentences, require a violation-indicator word, then
file the sentence under the first matching category (the loop `break`s
after one category) and tally a severity. -/
def processViolationSentence (r : ViolationsRecord) (sentence : String) :
    ViolationsRecord :=
  let sentence := pyStrip sentence
  if sentence.length < 15 then r
  else
    let sentence_lower := pyLower sentence
    if violation_indicator_words.any (fun w => pyIn w sentence_lower) then
      if gdpr_keywords.any (fun k => pyIn k sentence_lower) then
        bumpSeverity sentence_lower
          { r with gdpr := r.gdpr ++ [sentence],
                   total_violations := r.total_violations + 1 }
      else if accessibility_keywords.any (fun k => pyIn k sentence_lower) then
        bumpSeverity sentence_lower
          { r with accessibility := r.accessibility ++ [sentence],
                   total_violations := r.total_violations + 1 }
      else if wcag_keywords.any (fun k => pyIn k sentence_lower) then
        bumpSeverity sentence_lower
          { r with wcag := r.wcag ++ [sentence],
                   total_violations := r.total_violations + 1 }
      else if seo_keywords.any (fun k => pyIn k sentence_lower) then
        bumpSeverity sentence_lower
          { r with seo := r.seo ++ [sentence],
                   total_violations := r.total_violations + 1 }
      else if security_keywords.any (fun k => pyIn k sentence_lower) then
        bumpSeverity sentence_lower
          { r with security := r.security ++ [sentence],
                   total_violations := r.total_violations + 1 }
      else r
    else r

/-- The sentence splitting shared by all three text parsers:
`text.replace('\n', '. ').split('.')` over the LLM response concatenated
with the original crew text. -/
def sentencesOf (llm_response original_text : String) : List String :=
  pySplitDot (pyReplaceNl (llm_response ++ "\n" ++ original_text))

/-- `MultiAgentComplianceAuditor._parse_violations_from_text`.  Note that
no list in `by_category` is ever truncated. -/
def parse_violations_from_text (llm_response original_text : String) :
    ViolationsRecord :=
  let sentences := sentencesOf llm_response original_text
  let r :=
    sentences.foldl processViolationSentence
      { total_violations := 0, gdpr := [], accessibility := [], wcag := [],
        seo := [], security := [], critical := 0, high := 0, medium := 0,
        low := 0, raw_findings := "Parsed from agent analysis" }
  { r with raw_findings :=
      "Analyzed " ++ pyStrNat sentences.length ++ " statements from compliance scan" }

/-- The risk-assessment dictionary of `_parse_risk_assessment_from_text`
and of the `except` branch of `_extract_risk_assessment`. -/
structure RiskRecord where
  overall_risk_level : String
  risk_factors : List String
  potential_penalties : List String
  business_impact : String
  risk_summary : String
deriving DecidableEq

def risk_factor_keywords : List String :=
  ["risk", "violation", "non-compliant", "missing", "inadequate"]
def penalty_keywords : List String :=
  ["fine", "penalty", "sanction", "legal action", "lawsuit"]
def high_risk_keywords : List String :=
  ["critical", "severe", "major", "significant"]
def low_risk_keywords : List String :=
  ["minor", "low", "cosmetic", "suggestion"]

/-- The default penalties inserted when no penalty sentence was found
(string contents copied byte-for-byte from the source, including its
mangled euro sign). -/
def standard_penalties : List String :=
  ["GDPR fines up to â‚¬20 million or 4% of annual turnover",
   "ADA litigation and accessibility lawsuit costs",
   "Regulatory enforcement actions and compliance orders",
   "Reputation damage and loss of user trust"]

/-- Loop state of `_parse_risk_assessment_from_text`: the record under
construction plus the three local risk counters. -/
structure RiskLoopState where
  rec' : RiskRecord
  high_risk_count : Nat
  medium_risk_count : Nat
  low_risk_count : Nat

/-- The per-sentence body of the `_parse_risk_assessment_from_text`
loop. -/
def processRiskSentence (st : RiskLoopState) (sentence : String) : RiskLoopState :=
  let sentence := pyStrip sentence
  if sentence.length < 15 then st
  else
    let sentence_lower := pyLower sentence
    let st :=
      if risk_factor_keywords.any (fun k => pyIn k sentence_lower) then
        let st :=
          { st with rec' :=
              { st.rec' with risk_factors := st.rec'.risk_factors ++ [sentence] } }
        if high_risk_keywords.any (fun k => pyIn k sentence_lower) then
          { st with high_risk_count := st.high_risk_count + 1 }
        else if low_risk_keywords.any (fun k => pyIn k sentence_lower) then
          { st with low_risk_count := st.low_risk_count + 1 }
        else
          { st with medium_risk_count := st.medium_risk_count + 1 }
      else st
    if penalty_keywords.any (fun k => pyIn k sentence_lower) then
      { st with rec' :=
          { st.rec' with potential_penalties := st.rec'.potential_penalties ++ [sentence] } }
    else st

/-- `MultiAgentComplianceAuditor._parse_risk_assessment_from_text`. -/
def parse_risk_assessment_from_text (llm_response original_text : String) :
    RiskRecord :=
  let sentences := sentencesOf llm_response original_text
  let st :=
    sentences.foldl processRiskSentence
      { rec' :=
          { overall_risk_level := "medium", risk_factors := [],
            potential_penalties := [],
            business_impact :=
              "Compliance violations may impact business operations and user trust",
            risk_summary := "Risk assessment derived from compliance analysis" }
        high_risk_count := 0, medium_risk_count := 0, low_risk_count := 0 }
  let r := st.rec'
  let r :=
    if st.high_risk_count > 2 then { r with overall_risk_level := "high" }
    else if st.high_risk_count > 0 || st.medium_risk_count > 3 then
      { r with overall_risk_level := "medium" }
    else if st.low_risk_count > 0 then { r with overall_risk_level := "low" }
    else r
  let r :=
    if r.potential_penalties.isEmpty then
      { r with potential_penalties := standard_penalties }
    else r
  let r :=
    { r with risk_factors := r.risk_factors.take 6,
             potential_penalties := r.potential_penalties.take 4 }
  { r with risk_summary :=
      "Risk level: " ++ pyUpper r.overall_risk_level ++
        " - Based on analysis of " ++ pyStrNat sentences.length ++
        " compliance statements" }

/-- The legal-context dictionary of `_parse_legal_updates_from_text`. -/
structure LegalRecord where
  recent_updates : List String
  relevant_regulations : List String
  enforcement_trends : List String
  compliance_deadlines : List String
  regional_variations : List String
  update_summary : String
deriving DecidableEq

def legal_update_keywords : List String := ["update", "change", "new", "revised", "amended"]
def legal_regulation_keywords : List String := ["gdpr", "wcag", "ada", "ccpa", "article", "section"]
def legal_enforcement_keywords : List String := ["enforcement", "penalty", "fine", "violation", "court"]
def legal_deadline_keywords : List String := ["deadline", "compliance", "must", "required", "by"]

/-- The per-sentence body of the `_parse_legal_updates_from_text` loop
(minimum length 20 here, and an `if`/`elif` chain over the four keyword
sets). -/
def processLegalSentence (r : LegalRecord) (sentence : String) : LegalRecord :=
  let sentence := pyStrip sentence
  if sentence.length < 20 then r
  else
    let sentence_lower := pyLower sentence
    if legal_update_keywords.any (fun k => pyIn k sentence_lower) then
      { r with recent_updates := r.recent_updates ++ [sentence] }
    else if legal_regulation_keywords.any (fun k => pyIn k sentence_lower) then
      { r with relevant_regulations := r.relevant_regulations ++ [sentence] }
    else if legal_enforcement_keywords.any (fun k => pyIn k sentence_lower) then
      { r with enforcement_trends := r.enforcement_trends ++ [sentence] }
    else if legal_deadline_keywords.any (fun k => pyIn k sentence_lower) then
      { r with compliance_deadlines := r.compliance_deadlines ++ [sentence] }
    else r

/-- `MultiAgentComplianceAuditor._parse_legal_updates_from_text`: the four
populated sections are truncated to 5 items; `regional_variations` is
never appended to. -/
def parse_legal_updates_from_text (llm_response original_text : String) :
    LegalRecord :=
  let sentences := sentencesOf llm_response original_text
  let r :=
    sentences.foldl processLegalSentence
      { recent_updates := [], relevant_regulations := [],
        enforcement_trends := [], compliance_deadlines := [],
        regional_variations := [],
        update_summary := "Legal analysis from agent output" }
  let r :=
    { r with recent_updates := r.recent_updates.take 5,
             relevant_regulations := r.relevant_regulations.take 5,
             enforcement_trends := r.enforcement_trends.take 5,
             compliance_deadlines := r.compliance_deadlines.take 5 }
  { r with update_summary :=
      "Extracted legal context from " ++ pyStrNat sentences.length ++
        " legal statements" }

/-- Result of `_extract_violations`: either the JSON object decoded by the
strict tier (returned unvalidated), or a violation-report record from the
heuristic fallback / the `except` branch. -/
inductive ViolationsOut where
  | strict (j : Json)
  | record (r : ViolationsRecord)

/-- `MultiAgentComplianceAuditor._extract_violations`.  `crew_result` is
the crew output text (`str(crew_result) if crew_result else ""` is the
identity here); `llm` is the outcome of `self.llm.invoke`. -/
def extract_violations (crew_result : String) (llm : Except String String) :
    ViolationsOut :=
  let result_text := crew_result
  match llm with
  | .error _ =>
    .record
      { total_violations := 0, gdpr := [], accessibility := [], wcag := [],
        seo := [], security := [], critical := 0, high := 0, medium := 0,
        low := 0,
        raw_findings :=
          if crew_result ≠ "" then crew_result else "No violations detected" }
  | .ok response_text =>
    match regexBraceSpan response_text with
    | some span =>
      match jsonLoads span with
      | some violations_data => .strict violations_data
      | none => .record (parse_violations_from_text response_text result_text)
    | none => .record (parse_violations_from_text response_text result_text)

/-- Result of `_extract_risk_assessment`. -/
inductive RiskOut where
  | strict (j : Json)
  | record (r : RiskRecord)

/-- `MultiAgentComplianceAuditor._extract_risk_assessment`. -/
def extract_risk_assessment (crew_result : String) (llm : Except String String) :
    RiskOut :=
  let result_text := crew_result
  match llm with
  | .error _ =>
    .record
      { overall_risk_level := "medium", risk_factors := [],
        potential_penalties := [], business_impact := "",
        risk_summary :=
          if crew_result ≠ "" then crew_result else "No risk assessment completed" }
  | .ok response_text =>
    match regexBraceSpan response_text with
    | some span =>
      match jsonLoads span with
      | some risk_data => .strict risk_data
      | none => .record (parse_risk_assessment_from_text response_text result_text)
    | none => .record (parse_risk_assessment_from_text response_text result_text)

/-- The summary field of an `_extract_violations` result
(`raw_findings`), when present as a string. -/
def ViolationsOut.summaryField : ViolationsOut → Option String
  | .strict j => j.getStr? "raw_findings"
  | .record r => some r.raw_findings

/-- The summary field of an `_extract_risk_assessment` result
(`risk_summary`), when present as a string. -/
def RiskOut.summaryField : RiskOut → Option String
  | .strict j => j.getStr? "risk_summary"
  | .record r => some r.risk_summary

/-- Whether the strict JSON tier produced the result. -/
def ViolationsOut.isStrict : ViolationsOut → Bool
  | .strict _ => true
  | .record _ => false

def RiskOut.isStrict : RiskOut → Bool
  | .strict _ => true
  | .record _ => false


/-! ## Shared fixtures and helper lemmas for the claim theorems -/

/-- The four severity levels initialised by `generate_compliance_report`. -/
def severity_levels : List String := ["critical", "high", "medium", "low"]

/-- Number of mapped issues at a given severity level. -/
def countSev (s : String) (issues : List MappedIssue) : Nat :=
  (issues.filter (fun i => i.severity_level = s)).length

/-- A minimal mapped issue at a given severity (test fixture). -/
def mkIssue (sev : String) : MappedIssue :=
  { element_type := "General Compliance", element_xpath := "//body",
    element_selector := "body", issue_type := "Compliance issue detected",
    regulation_reference := "General compliance requirements",
    severity_level := sev, business_impact := "", fix_priority := 5,
    estimated_fix_time := "Variable" }

def dummyIssue : MappedIssue := mkIssue "medium"

/-- The compliance score of a report, through the `KeyError` channel. -/
def scoreOf (issues : List MappedIssue) : Except String Int :=
  (generate_compliance_report issues).map (fun r => r.compliance_score)

lemma tally_severities_eq (issues : List MappedIssue) :
    ∀ acc : SevCounts, (∀ i ∈ issues, i.severity_level ∈ severity_levels) →
      tally_severities issues acc =
        .ok ⟨acc.critical + countSev "critical" issues,
             acc.high + countSev "high" issues,
             acc.medium + countSev "medium" issues,
             acc.low + countSev "low" issues⟩ := by
  induction issues with
  | nil => intro acc _; simp [tally_severities, countSev]
  | cons i is ih =>
    intro acc hval
    have hi := hval i (List.mem_cons_self i is)
    have hrest : ∀ j ∈ is, j.severity_level ∈ severity_levels := by
      intro j hj; exact hval j (List.mem_cons_of_mem _ hj)
    simp only [severity_levels, List.mem_cons, List.not_mem_nil, or_false] at hi
    rcases hi with h | h | h | h <;>
      simp [tally_severities, h, ih _ hrest, countSev, List.filter_cons,
        SevCounts.mk.injEq] <;> omega

/-- C1: for every list of mapped issues whose severity levels are among
{critical, high, medium, low}, `generate_compliance_report` succeeds and
returns `compliance_score = max(0, 100 - (30*critical + 20*high +
10*medium + 5*low))`, which always lies in [0, 100]. -/
theorem C1_compliance_score_formula (issues : List MappedIssue)
    (hval : ∀ i ∈ issues, i.severity_level ∈ severity_levels) :
    scoreOf issues =
      .ok (max 0 ((100 : Int) -
        ((countSev "critical" issues : Int) * 30 +
         (countSev "high" issues : Int) * 20 +
         (countSev "medium" issues : Int) * 10 +
         (countSev "low" issues : Int) * 5))) ∧
    ∀ sc, scoreOf issues = .ok sc → 0 ≤ sc ∧ sc ≤ 100 := by
  have ht := tally_severities_eq issues ⟨0, 0, 0, 0⟩ hval
  have hok : scoreOf issues =
      .ok (max 0 ((100 : Int) -
        ((countSev "critical" issues : Int) * 30 +
         (countSev "high" issues : Int) * 20 +
         (countSev "medium" issues : Int) * 10 +
         (countSev "low" issues : Int) * 5))) := by
    simp [scoreOf, generate_compliance_report, ht, critical_penalty,
      high_penalty, medium_penalty, low_penalty, Except.map]
  refine ⟨hok, ?_⟩
  intro sc hsc
  rw [hok] at hsc
  have hsc' := Except.ok.inj hsc
  have hc : (0 : Int) ≤ (countSev "critical" issues : Int) := Int.natCast_nonneg _
  have hh : (0 : Int) ≤ (countSev "high" issues : Int) := Int.natCast_nonneg _
  have hm : (0 : Int) ≤ (countSev "medium" issues : Int) := Int.natCast_nonneg _
  have hl : (0 : Int) ≤ (countSev "low" issues : Int) := Int.natCast_nonneg _
  constructor
  · rw [← hsc']; exact le_max_left 0 _
  · rw [← hsc']
    exact max_le (by norm_num) (by nlinarith)

/-- C1 witness: a concrete issue list satisfying the hypothesis, with the
conclusion obtained from `C1_compliance_score_formula` itself. -/
theorem C1_compliance_score_formula_witness :
    (∀ i ∈ [mkIssue "critical", mkIssue "low"], i.severity_level ∈ severity_levels) ∧
    (scoreOf [mkIssue "critical", mkIssue "low"] =
      .ok (max 0 ((100 : Int) -
        ((countSev "critical" [mkIssue "critical", mkIssue "low"] : Int) * 30 +
         (countSev "high" [mkIssue "critical", mkIssue "low"] : Int) * 20 +
         (countSev "medium" [mkIssue "critical", mkIssue "low"] : Int) * 10 +
         (countSev "low" [mkIssue "critical", mkIssue "low"] : Int) * 5))) ∧
      ∀ sc, scoreOf [mkIssue "critical", mkIssue "low"] = .ok sc → 0 ≤ sc ∧ sc ≤ 100) :=
  ⟨by decide, C1_compliance_score_formula _ (by decide)⟩

/-- `n` identical critical issues (fixture for the clamping
counterexample). -/
def critIssues (n : Nat) : List MappedIssue :=
  List.replicate n (mkIssue "critical")

/-- C6 counterexample: four versus five critical issues — every severity
count of the second list is at least the first's and the critical count is
strictly larger, yet both compliance scores are 0 (the clamp at 0 destroys
strict monotonicity). -/
theorem C6_counterexample_clamped_scores :
    (∀ s ∈ severity_levels, countSev s (critIssues 4) ≤ countSev s (critIssues 5)) ∧
    countSev "critical" (critIssues 4) < countSev "critical" (critIssues 5) ∧
    scoreOf (critIssues 4) = .ok 0 ∧ scoreOf (critIssues 5) = .ok 0 ∧
    scoreOf (critIssues 5) = scoreOf (critIssues 4) := by
  refine ⟨by decide, by decide, by rfl, by rfl, by rfl⟩

/-- C6 amended: when severity counts increase pointwise with at least one
strict increase, the compliance score weakly decreases, and strictly
decreases whenever the first score is still positive. -/
theorem C6_amended_score_monotonicity (l1 l2 : List MappedIssue)
    (h1 : ∀ i ∈ l1, i.severity_level ∈ severity_levels)
    (h2 : ∀ i ∈ l2, i.severity_level ∈ severity_levels)
    (hmono : ∀ s ∈ severity_levels, countSev s l1 ≤ countSev s l2)
    (hstrict : ∃ s ∈ severity_levels, countSev s l1 < countSev s l2) :
    ∃ s1 s2, scoreOf l1 = .ok s1 ∧ scoreOf l2 = .ok s2 ∧
      s2 ≤ s1 ∧ (0 < s1 → s2 < s1) := by
  have t1 := tally_severities_eq l1 ⟨0, 0, 0, 0⟩ h1
  have t2 := tally_severities_eq l2 ⟨0, 0, 0, 0⟩ h2
  refine ⟨max 0 ((100 : Int) -
      ((countSev "critical" l1 : Int) * 30 + (countSev "high" l1 : Int) * 20 +
       (countSev "medium" l1 : Int) * 10 + (countSev "low" l1 : Int) * 5)),
    max 0 ((100 : Int) -
      ((countSev "critical" l2 : Int) * 30 + (countSev "high" l2 : Int) * 20 +
       (countSev "medium" l2 : Int) * 10 + (countSev "low" l2 : Int) * 5)),
    ?_, ?_, ?_, ?_⟩
  · simp [scoreOf, generate_compliance_report, t1, critical_penalty,
      high_penalty, medium_penalty, low_penalty, Except.map]
  · simp [scoreOf, generate_compliance_report, t2, critical_penalty,
      high_penalty, medium_penalty, low_penalty, Except.map]
  all_goals
    have hc := hmono "critical" (by decide)
    have hh := hmono "high" (by decide)
    have hm := hmono "medium" (by decide)
    have hl := hmono "low" (by decide)
    have hpen : ((countSev "critical" l1 : Int) * 30 + (countSev "high" l1 : Int) * 20 +
        (countSev "medium" l1 : Int) * 10 + (countSev "low" l1 : Int) * 5) + 5 ≤
        ((countSev "critical" l2 : Int) * 30 + (countSev "high" l2 : Int) * 20 +
         (countSev "medium" l2 : Int) * 10 + (countSev "low" l2 : Int) * 5) := by
      rcases hstrict with ⟨s, hs, hlt⟩
      fin_cases hs <;> omega
  · exact max_le_max (le_refl 0) (by omega)
  · intro hpos
    have hx : (0 : Int) < 100 -
        ((countSev "critical" l1 : Int) * 30 + (countSev "high" l1 : Int) * 20 +
         (countSev "medium" l1 : Int) * 10 + (countSev "low" l1 : Int) * 5) := by
      rcases lt_max_iff.mp hpos with h | h
      · exact absurd h (lt_irrefl 0)
      · exact h
    rw [max_eq_right (le_of_lt hx)]
    exact max_lt hx (by omega)

/-- C6 amended witness: one low issue versus two low issues (95 versus
90). -/
theorem C6_amended_score_monotonicity_witness :
    ((∀ i ∈ [mkIssue "low"], i.severity_level ∈ severity_levels) ∧
     (∀ i ∈ [mkIssue "low", mkIssue "low"], i.severity_level ∈ severity_levels) ∧
     (∀ s ∈ severity_levels,
        countSev s [mkIssue "low"] ≤ countSev s [mkIssue "low", mkIssue "low"]) ∧
     (∃ s ∈ severity_levels,
        countSev s [mkIssue "low"] < countSev s [mkIssue "low", mkIssue "low"])) ∧
    (∃ s1 s2, scoreOf [mkIssue "low"] = .ok s1 ∧
      scoreOf [mkIssue "low", mkIssue "low"] = .ok s2 ∧
      s2 ≤ s1 ∧ (0 < s1 → s2 < s1)) :=
  ⟨⟨by decide, by decide, by decide, by decide⟩,
   C6_amended_score_monotonicity _ _ (by decide) (by decide) (by decide) (by decide)⟩

/-- C7: `generate_remediation_plan` reports as total effort the sum of the
per-fix hour contributions ("N hours" parses to N, "N days" to N*8), and
for every fix the advisor can produce the effort string parses (it
contains "hour" or "day" and its first token is a digit string), so the
parse-failure defaults are never taken and no fix contributes 0. -/
theorem C7_total_effort_sum (issues : List MappedIssue) :
    (generate_remediation_plan issues).estimated_total_time =
      pyStrNat (issues.foldl
        (fun acc i =>
          acc + effortContribution (generate_specific_fix i.issue_type).estimated_time)
        0) ++ " hours" ∧
    ∀ i ∈ issues,
      (pyIn "hour" (generate_specific_fix i.issue_type).estimated_time = true ∨
        pyIn "day" (generate_specific_fix i.issue_type).estimated_time = true) ∧
      pyIsDigit ((pySplitWs (generate_specific_fix i.issue_type).estimated_time).headD "") = true ∧
      0 < effortContribution (generate_specific_fix i.issue_type).estimated_time := by
  constructor
  · simp [generate_remediation_plan, List.foldl_map]
  · intro i hi
    unfold generate_specific_fix
    split_ifs <;> refine ⟨?_, ?_, ?_⟩ <;>
      simp only [generic_fix, generate_cookie_banner_fix, generate_alt_text_fix,
        generate_form_label_fix, generate_keyboard_access_fix, generate_https_fix,
        generate_meta_tags_fix] <;> decide

/-- C7 witness: a single generic issue contributes its 2-hour default
template time. -/
theorem C7_total_effort_sum_witness :
    (mkIssue "low") ∈ [mkIssue "low"] ∧
    0 < effortContribution (generate_specific_fix (mkIssue "low").issue_type).estimated_time ∧
    (generate_remediation_plan [mkIssue "low"]).estimated_total_time = "2 hours" :=
  ⟨by decide, ((C7_total_effort_sum [mkIssue "low"]).2 _ (by decide)).2.2, by decide⟩


/-! ## Characterisation of the scanner's output -/

lemma mem_ite_singleton {α} {c : Prop} [Decidable c] {x v : α}
    (h : v ∈ (if c then [x] else ([] : List α))) : v = x := by
  split at h
  · simpa using h
  · simp at h

lemma mem_ite_ite_singleton {α} {c d : Prop} [Decidable c] [Decidable d] {x y v : α}
    (h : v ∈ (if c then [x] else if d then [y] else ([] : List α))) :
    v = x ∨ v = y := by
  split at h
  · exact Or.inl (by simpa using h)
  · split at h
    · exact Or.inr (by simpa using h)
    · simp at h

/-- The `(type, severity)` tags a scan can emit, in rule-declaration
order. -/
def scanTypeSevPairs : List (String × String) :=
  [("gdpr_cookie_banner", "critical"), ("gdpr_privacy_policy", "high"),
   ("gdpr_contact_info", "medium"), ("wcag_missing_alt", "high"),
   ("wcag_missing_h1", "high"), ("wcag_multiple_h1", "medium"),
   ("wcag_unlabeled_inputs", "high"), ("wcag_generic_links", "medium"),
   ("ada_keyboard_access", "high"), ("ada_missing_landmarks", "medium"),
   ("security_no_https", "critical"), ("security_external_scripts", "medium"),
   ("seo_missing_meta_desc", "low"), ("seo_missing_title", "medium")]

lemma mem_check_gdpr_typeSev {doc : Doc} {v : Violation}
    (hv : v ∈ check_gdpr_compliance doc) :
    (v.type, v.severity) ∈
      ([("gdpr_cookie_banner", "critical"), ("gdpr_privacy_policy", "high"),
        ("gdpr_contact_info", "medium")] : List (String × String)) := by
  simp only [check_gdpr_compliance] at hv
  rcases List.mem_append.mp hv with h | h
  · rcases List.mem_append.mp h with h2 | h2
    · rw [mem_ite_singleton h2]; simp
    · rw [mem_ite_singleton h2]; simp
  · rw [mem_ite_singleton h]; simp

lemma mem_check_wcag_typeSev {doc : Doc} {v : Violation}
    (hv : v ∈ check_wcag_compliance doc) :
    (v.type, v.severity) ∈
      ([("wcag_missing_alt", "high"), ("wcag_missing_h1", "high"),
        ("wcag_multiple_h1", "medium"), ("wcag_unlabeled_inputs", "high"),
        ("wcag_generic_links", "medium")] : List (String × String)) := by
  simp only [check_wcag_compliance] at hv
  rcases List.mem_append.mp hv with h | h
  · rcases List.mem_append.mp h with h2 | h2
    · rcases List.mem_append.mp h2 with h3 | h3
      · rw [mem_ite_singleton h3]; simp
      · rcases mem_ite_ite_singleton h3 with h4 | h4 <;> (rw [h4]; simp)
    · rw [mem_ite_singleton h2]; simp
  · rw [mem_ite_singleton h]; simp

lemma mem_check_ada_typeSev {doc : Doc} {v : Violation}
    (hv : v ∈ check_ada_compliance doc) :
    (v.type, v.severity) ∈
      ([("ada_keyboard_access", "high"), ("ada_missing_landmarks", "medium")] :
        List (String × String)) := by
  simp only [check_ada_compliance] at hv
  rcases List.mem_append.mp hv with h | h
  · rw [mem_ite_singleton h]; simp
  · rw [mem_ite_singleton h]; simp

lemma mem_check_security_typeSev {url : String} {doc : Doc} {v : Violation}
    (hv : v ∈ check_security_compliance url doc) :
    (v.type, v.severity) ∈
      ([("security_no_https", "critical"), ("security_external_scripts", "medium")] :
        List (String × String)) := by
  simp only [check_security_compliance] at hv
  rcases List.mem_append.mp hv with h | h
  · rw [mem_ite_singleton h]; simp
  · rw [mem_ite_singleton h]; simp

lemma mem_check_seo_typeSev {doc : Doc} {v : Violation}
    (hv : v ∈ check_seo_compliance doc) :
    (v.type, v.severity) ∈
      ([("seo_missing_meta_desc", "low"), ("seo_missing_title", "medium")] :
        List (String × String)) := by
  simp only [check_seo_compliance] at hv
  rcases List.mem_append.mp hv with h | h
  · rw [mem_ite_singleton h]; simp
  · rw [mem_ite_singleton h]; simp

/-- Every violation a scan emits carries one of the fourteen fixed
`(type, severity)` tag pairs. -/
lemma scan_typeSev {url : String} {doc : Doc} {v : Violation}
    (hv : v ∈ scan_website url doc) :
    (v.type, v.severity) ∈ scanTypeSevPairs := by
  unfold scan_website at hv
  rcases List.mem_append.mp hv with h | h
  · rcases List.mem_append.mp h with h | h
    · rcases List.mem_append.mp h with h | h
      · rcases List.mem_append.mp h with h | h
        · have hts := mem_check_gdpr_typeSev h
          simp only [List.mem_cons, List.not_mem_nil, or_false] at hts
          rcases hts with h1 | h1 | h1 <;> (rw [scanTypeSevPairs, h1]; decide)
        · have hts := mem_check_wcag_typeSev h
          simp only [List.mem_cons, List.not_mem_nil, or_false] at hts
          rcases hts with h1 | h1 | h1 | h1 | h1 <;> (rw [scanTypeSevPairs, h1]; decide)
      · have hts := mem_check_ada_typeSev h
        simp only [List.mem_cons, List.not_mem_nil, or_false] at hts
        rcases hts with h1 | h1 <;> (rw [scanTypeSevPairs, h1]; decide)
    · have hts := mem_check_security_typeSev h
      simp only [List.mem_cons, List.not_mem_nil, or_false] at hts
      rcases hts with h1 | h1 <;> (rw [scanTypeSevPairs, h1]; decide)
  · have hts := mem_check_seo_typeSev h
    simp only [List.mem_cons, List.not_mem_nil, or_false] at hts
    rcases hts with h1 | h1 <;> (rw [scanTypeSevPairs, h1]; decide)

lemma catIdx_eq_of_type {v : Violation} {t : String} (h : v.type = t) :
    violationCategoryIdx v =
      violationCategoryIdx
        { type := t, severity := "", element := "", description := "",
          regulation := "" } := by
  unfold violationCategoryIdx; rw [h]

lemma catIdx_check_gdpr {doc : Doc} {v : Violation}
    (hv : v ∈ check_gdpr_compliance doc) : violationCategoryIdx v = 0 := by
  have h := mem_check_gdpr_typeSev hv
  simp only [List.mem_cons, List.not_mem_nil, or_false, Prod.mk.injEq] at h
  rcases h with h | h | h <;> (rw [catIdx_eq_of_type h.1]; decide)

lemma catIdx_check_wcag {doc : Doc} {v : Violation}
    (hv : v ∈ check_wcag_compliance doc) : violationCategoryIdx v = 1 := by
  have h := mem_check_wcag_typeSev hv
  simp only [List.mem_cons, List.not_mem_nil, or_false, Prod.mk.injEq] at h
  rcases h with h | h | h | h | h <;> (rw [catIdx_eq_of_type h.1]; decide)

lemma catIdx_check_ada {doc : Doc} {v : Violation}
    (hv : v ∈ check_ada_compliance doc) : violationCategoryIdx v = 2 := by
  have h := mem_check_ada_typeSev hv
  simp only [List.mem_cons, List.not_mem_nil, or_false, Prod.mk.injEq] at h
  rcases h with h | h <;> (rw [catIdx_eq_of_type h.1]; decide)

lemma catIdx_check_security {url : String} {doc : Doc} {v : Violation}
    (hv : v ∈ check_security_compliance url doc) : violationCategoryIdx v = 3 := by
  have h := mem_check_security_typeSev hv
  simp only [List.mem_cons, List.not_mem_nil, or_false, Prod.mk.injEq] at h
  rcases h with h | h <;> (rw [catIdx_eq_of_type h.1]; decide)

lemma catIdx_check_seo {doc : Doc} {v : Violation}
    (hv : v ∈ check_seo_compliance doc) : violationCategoryIdx v = 4 := by
  have h := mem_check_seo_typeSev hv
  simp only [List.mem_cons, List.not_mem_nil, or_false, Prod.mk.injEq] at h
  rcases h with h | h <;> (rw [catIdx_eq_of_type h.1]; decide)

lemma pairwise_catIdx_const {l : List Violation} {k : Nat}
    (h : ∀ v ∈ l, violationCategoryIdx v = k) :
    List.Pairwise (fun a b => violationCategoryIdx a ≤ violationCategoryIdx b) l := by
  induction l with
  | nil => constructor
  | cons x xs ih =>
    constructor
    · intro b hb
      rw [h x (List.mem_cons_self _ _), h b (List.mem_cons_of_mem _ hb)]
    · exact ih (fun v hv => h v (List.mem_cons_of_mem _ hv))

/-- C9: the scanner is deterministic across repeated calls on the same
document and URL irrespective of the scanner object's previous state
(`scan_website` resets `self.violations` first), and the emitted
violations appear in rule-declaration order: GDPR, then WCAG, then ADA,
then security, then SEO (category indices are non-decreasing along the
output). -/
theorem C9_scan_deterministic_and_ordered (url : String) (doc : Doc)
    (st1 st2 : List Violation) :
    (scan_website_run url doc st1).1 = (scan_website_run url doc st2).1 ∧
    (scan_website_run url doc (scan_website_run url doc st1).2).1 =
      (scan_website_run url doc st1).1 ∧
    List.Pairwise (fun a b => violationCategoryIdx a ≤ violationCategoryIdx b)
      (scan_website_run url doc st1).1 := by
  refine ⟨rfl, rfl, ?_⟩
  show List.Pairwise _ (scan_website url doc)
  unfold scan_website
  have hg : ∀ v ∈ check_gdpr_compliance doc, violationCategoryIdx v = 0 :=
    fun _ hv => catIdx_check_gdpr hv
  have hw : ∀ v ∈ check_wcag_compliance doc, violationCategoryIdx v = 1 :=
    fun _ hv => catIdx_check_wcag hv
  have ha : ∀ v ∈ check_ada_compliance doc, violationCategoryIdx v = 2 :=
    fun _ hv => catIdx_check_ada hv
  have hs : ∀ v ∈ check_security_compliance url doc, violationCategoryIdx v = 3 :=
    fun _ hv => catIdx_check_security hv
  have he : ∀ v ∈ check_seo_compliance doc, violationCategoryIdx v = 4 :=
    fun _ hv => catIdx_check_seo hv
  refine List.pairwise_append.mpr ⟨?_, pairwise_catIdx_const he, ?_⟩
  · refine List.pairwise_append.mpr ⟨?_, pairwise_catIdx_const hs, ?_⟩
    · refine List.pairwise_append.mpr ⟨?_, pairwise_catIdx_const ha, ?_⟩
      · refine List.pairwise_append.mpr
          ⟨pairwise_catIdx_const hg, pairwise_catIdx_const hw, ?_⟩
        · intro a ha' b hb'; rw [hg a ha', hw b hb']; omega
      · intro a ha' b hb'
        rcases List.mem_append.mp ha' with h | h
        · rw [hg a h, ha b hb']; omega
        · rw [hw a h, ha b hb']; omega
    · intro a ha' b hb'
      rcases List.mem_append.mp ha' with h | h
      · rcases List.mem_append.mp h with h2 | h2
        · rw [hg a h2, hs b hb']; omega
        · rw [hw a h2, hs b hb']; omega
      · rw [ha a h, hs b hb']; omega
  · intro a ha' b hb'
    rcases List.mem_append.mp ha' with h | h
    · rcases List.mem_append.mp h with h2 | h2
      · rcases List.mem_append.mp h2 with h3 | h3
        · rw [hg a h3, he b hb']; omega
        · rw [hw a h3, he b hb']; omega
      · rw [ha a h2, he b hb']; omega
    · rw [hs a h, he b hb']; omega

/-- A minimal concrete document and URL (fixtures for the closed
witnesses and counterexamples). -/
def fixtureDoc : Doc := [Node.el "html" [] [Node.el "body" [] []]]

def fixtureUrl : String := "https://example.com"

/-- C3 counterexample: calling `scan_website` with `url = None` (Python
does not enforce the `url: str` annotation) makes the security rule raise
`AttributeError`; the exception is *not* caught — it propagates and aborts
the whole scan instead of being recorded as a zero-violation result plus
a warning with the remaining rules still running. -/
theorem C3_counterexample_uncaught_rule_exception :
    check_security_complianceE none fixtureDoc = .error noneStartswithErr ∧
    scan_websiteE none fixtureDoc = .error noneStartswithErr ∧
    ¬ ∃ vs, scan_websiteE none fixtureDoc = .ok vs := by
  refine ⟨rfl, rfl, ?_⟩
  rintro ⟨vs, h⟩
  rw [show scan_websiteE none fixtureDoc = .error noneStartswithErr from rfl] at h
  exact Except.noConfusion h

/-- C3 amended: `scan_website` contains no exception handling — when a
rule raises, the exception propagates out of the scan (aborting the
remaining rules, with no warning recorded); and for every well-typed
(string) URL no rule of the fixed battery ever raises, so the guarded
behaviour the specification describes has no reachable trigger. -/
theorem C3_amended_no_rule_isolation :
    (∀ doc : Doc, scan_websiteE none doc = .error noneStartswithErr) ∧
    (∀ (url : String) (doc : Doc),
      scan_websiteE (some url) doc = .ok (scan_website url doc)) := by
  exact ⟨fun doc => rfl, fun url doc => rfl⟩


/-- The `(severity_level, fix_priority)` pairs a mapped issue derived from
a scanner violation can carry. -/
def sevPrioPairs : List (String × Nat) :=
  [("critical", 1), ("high", 2), ("high", 3), ("high", 4), ("high", 5),
   ("medium", 5), ("low", 5)]

lemma create_mapped_issue_sevPrio {doc : Doc} {v : Violation}
    (h : (v.type, v.severity) ∈ scanTypeSevPairs) :
    ((create_mapped_issue doc v).severity_level,
      (create_mapped_issue doc v).fix_priority) ∈ sevPrioPairs := by
  simp only [scanTypeSevPairs, List.mem_cons, List.not_mem_nil, or_false,
    Prod.mk.injEq] at h
  rcases h with h | h | h | h | h | h | h | h | h | h | h | h | h | h
  · -- gdpr_cookie_banner
    have d1 : pyIn "gdpr_cookie" v.type = true := by rw [h.1]; decide
    simp [create_mapped_issue, d1, map_cookie_consent_issue, sevPrioPairs]
  · -- gdpr_privacy_policy
    have d1 : pyIn "gdpr_cookie" v.type = false := by rw [h.1]; decide
    have d2 : pyIn "wcag_missing_alt" v.type = false := by rw [h.1]; decide
    have d3 : pyIn "wcag_unlabeled_inputs" v.type = false := by rw [h.1]; decide
    have d4 : pyIn "ada_keyboard" v.type = false := by rw [h.1]; decide
    have d5 : pyIn "security_no_https" v.type = false := by rw [h.1]; decide
    simp [create_mapped_issue, d1, d2, d3, d4, d5, map_generic_issue, sevPrioPairs, h.2]
  · -- gdpr_contact_info
    have d1 : pyIn "gdpr_cookie" v.type = false := by rw [h.1]; decide
    have d2 : pyIn "wcag_missing_alt" v.type = false := by rw [h.1]; decide
    have d3 : pyIn "wcag_unlabeled_inputs" v.type = false := by rw [h.1]; decide
    have d4 : pyIn "ada_keyboard" v.type = false := by rw [h.1]; decide
    have d5 : pyIn "security_no_https" v.type = false := by rw [h.1]; decide
    simp [create_mapped_issue, d1, d2, d3, d4, d5, map_generic_issue, sevPrioPairs, h.2]
  · -- wcag_missing_alt
    have d1 : pyIn "gdpr_cookie" v.type = false := by rw [h.1]; decide
    have d2 : pyIn "wcag_missing_alt" v.type = true := by rw [h.1]; decide
    simp [create_mapped_issue, d1, d2, map_alt_text_issues, sevPrioPairs]
  · -- wcag_missing_h1
    have d1 : pyIn "gdpr_cookie" v.type = false := by rw [h.1]; decide
    have d2 : pyIn "wcag_missing_alt" v.type = false := by rw [h.1]; decide
    have d3 : pyIn "wcag_unlabeled_inputs" v.type = false := by rw [h.1]; decide
    have d4 : pyIn "ada_keyboard" v.type = false := by rw [h.1]; decide
    have d5 : pyIn "security_no_https" v.type = false := by rw [h.1]; decide
    simp [create_mapped_issue, d1, d2, d3, d4, d5, map_generic_issue, sevPrioPairs, h.2]
  · -- wcag_multiple_h1
    have d1 : pyIn "gdpr_cookie" v.type = false := by rw [h.1]; decide
    have d2 : pyIn "wcag_missing_alt" v.type = false := by rw [h.1]; decide
    have d3 : pyIn "wcag_unlabeled_inputs" v.type = false := by rw [h.1]; decide
    have d4 : pyIn "ada_keyboard" v.type = false := by rw [h.1]; decide
    have d5 : pyIn "security_no_https" v.type = false := by rw [h.1]; decide
    simp [create_mapped_issue, d1, d2, d3, d4, d5, map_generic_issue, sevPrioPairs, h.2]
  · -- wcag_unlabeled_inputs
    have d1 : pyIn "gdpr_cookie" v.type = false := by rw [h.1]; decide
    have d2 : pyIn "wcag_missing_alt" v.type = false := by rw [h.1]; decide
    have d3 : pyIn "wcag_unlabeled_inputs" v.type = true := by rw [h.1]; decide
    simp [create_mapped_issue, d1, d2, d3, map_form_label_issues, sevPrioPairs]
  · -- wcag_generic_links
    have d1 : pyIn "gdpr_cookie" v.type = false := by rw [h.1]; decide
    have d2 : pyIn "wcag_missing_alt" v.type = false := by rw [h.1]; decide
    have d3 : pyIn "wcag_unlabeled_inputs" v.type = false := by rw [h.1]; decide
    have d4 : pyIn "ada_keyboard" v.type = false := by rw [h.1]; decide
    have d5 : pyIn "security_no_https" v.type = false := by rw [h.1]; decide
    simp [create_mapped_issue, d1, d2, d3, d4, d5, map_generic_issue, sevPrioPairs, h.2]
  · -- ada_keyboard_access
    have d1 : pyIn "gdpr_cookie" v.type = false := by rw [h.1]; decide
    have d2 : pyIn "wcag_missing_alt" v.type = false := by rw [h.1]; decide
    have d3 : pyIn "wcag_unlabeled_inputs" v.type = false := by rw [h.1]; decide
    have d4 : pyIn "ada_keyboard" v.type = true := by rw [h.1]; decide
    simp [create_mapped_issue, d1, d2, d3, d4, map_keyboard_access_issues, sevPrioPairs]
  · -- ada_missing_landmarks
    have d1 : pyIn "gdpr_cookie" v.type = false := by rw [h.1]; decide
    have d2 : pyIn "wcag_missing_alt" v.type = false := by rw [h.1]; decide
    have d3 : pyIn "wcag_unlabeled_inputs" v.type = false := by rw [h.1]; decide
    have d4 : pyIn "ada_keyboard" v.type = false := by rw [h.1]; decide
    have d5 : pyIn "security_no_https" v.type = false := by rw [h.1]; decide
    simp [create_mapped_issue, d1, d2, d3, d4, d5, map_generic_issue, sevPrioPairs, h.2]
  · -- security_no_https
    have d1 : pyIn "gdpr_cookie" v.type = false := by rw [h.1]; decide
    have d2 : pyIn "wcag_missing_alt" v.type = false := by rw [h.1]; decide
    have d3 : pyIn "wcag_unlabeled_inputs" v.type = false := by rw [h.1]; decide
    have d4 : pyIn "ada_keyboard" v.type = false := by rw [h.1]; decide
    have d5 : pyIn "security_no_https" v.type = true := by rw [h.1]; decide
    simp [create_mapped_issue, d1, d2, d3, d4, d5, map_security_issues, sevPrioPairs]
  · -- security_external_scripts
    have d1 : pyIn "gdpr_cookie" v.type = false := by rw [h.1]; decide
    have d2 : pyIn "wcag_missing_alt" v.type = false := by rw [h.1]; decide
    have d3 : pyIn "wcag_unlabeled_inputs" v.type = false := by rw [h.1]; decide
    have d4 : pyIn "ada_keyboard" v.type = false := by rw [h.1]; decide
    have d5 : pyIn "security_no_https" v.type = false := by rw [h.1]; decide
    simp [create_mapped_issue, d1, d2, d3, d4, d5, map_generic_issue, sevPrioPairs, h.2]
  · -- seo_missing_meta_desc
    have d1 : pyIn "gdpr_cookie" v.type = false := by rw [h.1]; decide
    have d2 : pyIn "wcag_missing_alt" v.type = false := by rw [h.1]; decide
    have d3 : pyIn "wcag_unlabeled_inputs" v.type = false := by rw [h.1]; decide
    have d4 : pyIn "ada_keyboard" v.type = false := by rw [h.1]; decide
    have d5 : pyIn "security_no_https" v.type = false := by rw [h.1]; decide
    simp [create_mapped_issue, d1, d2, d3, d4, d5, map_generic_issue, sevPrioPairs, h.2]
  · -- seo_missing_title
    have d1 : pyIn "gdpr_cookie" v.type = false := by rw [h.1]; decide
    have d2 : pyIn "wcag_missing_alt" v.type = false := by rw [h.1]; decide
    have d3 : pyIn "wcag_unlabeled_inputs" v.type = false := by rw [h.1]; decide
    have d4 : pyIn "ada_keyboard" v.type = false := by rw [h.1]; decide
    have d5 : pyIn "security_no_https" v.type = false := by rw [h.1]; decide
    simp [create_mapped_issue, d1, d2, d3, d4, d5, map_generic_issue, sevPrioPairs, h.2]

/-- Decompose membership in the mapper's (sorted) output. -/
lemma mem_mapped {doc : Doc} {violations : List Violation} {i : MappedIssue}
    (hi : i ∈ map_violations_to_elements doc violations) :
    ∃ v ∈ violations, i = create_mapped_issue doc v := by
  unfold map_violations_to_elements at hi
  have hmem := (List.perm_insertionSort
    (fun a b : MappedIssue => a.fix_priority ≤ b.fix_priority) _).mem_iff.mp hi
  rcases List.mem_map.mp hmem with ⟨v, hv, he⟩
  exact ⟨v, hv, he.symm⟩

lemma mapped_sevPrio {url : String} {doc : Doc} {i : MappedIssue}
    (hi : i ∈ map_violations_to_elements doc (scan_website url doc)) :
    (i.severity_level, i.fix_priority) ∈ sevPrioPairs := by
  rcases mem_mapped hi with ⟨v, hv, rfl⟩
  exact create_mapped_issue_sevPrio (scan_typeSev hv)

/-- Severity rank: critical < high < medium < low. -/
def sevRank (s : String) : Nat :=
  if s = "critical" then 0
  else if s = "high" then 1
  else if s = "medium" then 2
  else if s = "low" then 3
  else 4

lemma filter_orderedInsert_prio (x : MappedIssue) (l : List MappedIssue) (p : Nat) :
    (List.orderedInsert (fun a b => a.fix_priority ≤ b.fix_priority) x l).filter
        (fun i => i.fix_priority == p) =
      if x.fix_priority = p then
        x :: l.filter (fun i => i.fix_priority == p)
      else l.filter (fun i => i.fix_priority == p) := by
  induction l with
  | nil =>
    by_cases hx : x.fix_priority = p <;> simp [List.orderedInsert, hx]
  | cons b l ih =>
    rw [List.orderedInsert]
    by_cases hle : x.fix_priority ≤ b.fix_priority
    · rw [if_pos hle]
      by_cases hx : x.fix_priority = p <;> simp [List.filter_cons, hx]
    · rw [if_neg hle]
      simp only [List.filter_cons, ih]
      by_cases hx : x.fix_priority = p
      · have hbp : ¬ b.fix_priority = p := by omega
        simp [hx, hbp]
      · by_cases hbp : b.fix_priority = p <;> simp [hx, hbp]

lemma filter_insertionSort_prio (l : List MappedIssue) (p : Nat) :
    (l.insertionSort (fun a b => a.fix_priority ≤ b.fix_priority)).filter
        (fun i => i.fix_priority == p) =
      l.filter (fun i => i.fix_priority == p) := by
  induction l with
  | nil => rfl
  | cons x xs ih =>
    rw [List.insertionSort, filter_orderedInsert_prio, List.filter_cons]
    by_cases hx : x.fix_priority = p <;> simp [hx, ih]

/-- C2 (amended): on every document, the mapper's output over the
scanner's violations has `fix_priority` monotone in severity rank
(critical < high < medium < low), critical issues at priority 1 (hence
at most 2), high issues at priority at most 5 — not 4, see the
counterexample — the output is sorted by `fix_priority`, and equal
priorities keep discovery order (Python's stable sort): filtering any
priority class commutes with the sort. -/
theorem C2_amended_priority_monotonicity (url : String) (doc : Doc) :
    (∀ i ∈ map_violations_to_elements doc (scan_website url doc),
      ∀ j ∈ map_violations_to_elements doc (scan_website url doc),
        sevRank i.severity_level < sevRank j.severity_level →
          i.fix_priority ≤ j.fix_priority) ∧
    (∀ i ∈ map_violations_to_elements doc (scan_website url doc),
      i.severity_level = "critical" → i.fix_priority ≤ 2) ∧
    (∀ i ∈ map_violations_to_elements doc (scan_website url doc),
      i.severity_level = "high" → i.fix_priority ≤ 5) ∧
    List.Sorted (fun a b => a.fix_priority ≤ b.fix_priority)
      (map_violations_to_elements doc (scan_website url doc)) ∧
    (∀ p : Nat,
      (map_violations_to_elements doc (scan_website url doc)).filter
          (fun i => i.fix_priority == p) =
        ((scan_website url doc).map (create_mapped_issue doc)).filter
          (fun i => i.fix_priority == p)) := by
  have key1 : ∀ p ∈ sevPrioPairs, ∀ q ∈ sevPrioPairs,
      sevRank p.1 < sevRank q.1 → p.2 ≤ q.2 := by decide
  have key2 : ∀ p ∈ sevPrioPairs, (p.1 = "critical" → p.2 ≤ 2) ∧
      (p.1 = "high" → p.2 ≤ 5) := by decide
  refine ⟨?_, ?_, ?_, ?_, ?_⟩
  · intro i hi j hj hlt
    exact key1 _ (mapped_sevPrio hi) _ (mapped_sevPrio hj) hlt
  · intro i hi hc
    exact (key2 _ (mapped_sevPrio hi)).1 hc
  · intro i hi hc
    exact (key2 _ (mapped_sevPrio hi)).2 hc
  · haveI : IsTotal MappedIssue (fun a b => a.fix_priority ≤ b.fix_priority) :=
      ⟨fun a b => Nat.le_total _ _⟩
    haveI : IsTrans MappedIssue (fun a b => a.fix_priority ≤ b.fix_priority) :=
      ⟨fun _ _ _ hab hbc => le_trans hab hbc⟩
    exact List.sorted_insertionSort _ _
  · intro p
    exact filter_insertionSort_prio _ p

/-- The mapper output on the fixture document (no privacy link, no h1,
no landmarks, no meta description, no title). -/
def fixtureMapped : List MappedIssue :=
  map_violations_to_elements fixtureDoc (scan_website fixtureUrl fixtureDoc)

/-- C2 counterexample: on the fixture document the scanner's
`gdpr_privacy_policy` violation (severity high) falls into the mapper's
generic branch and receives `fix_priority = 5 > 4`, refuting
"high issues at priority ≤ 4". -/
theorem C2_counterexample_high_priority_five :
    (fixtureMapped.getD 1 dummyIssue).severity_level = "high" ∧
    4 < (fixtureMapped.getD 1 dummyIssue).fix_priority := by
  exact ⟨by decide, by decide⟩

/-- C2 amended witness: the fixture document's first mapped issue is
critical with priority 1 ≤ 2, obtained through the amended theorem. -/
theorem C2_amended_priority_monotonicity_witness :
    (fixtureMapped.getD 0 dummyIssue).severity_level = "critical" ∧
    (fixtureMapped.getD 0 dummyIssue).fix_priority ≤ 2 :=
  ⟨by decide,
   (C2_amended_priority_monotonicity fixtureUrl fixtureDoc).2.1 _ (by decide)
     (by decide)⟩


/-! ## C10: the advisor's template keys never match mapper output -/

lemma digitChar10_ne_underscore {d : Nat} (hd : d < 10) : digitChar10 d ≠ '_' := by
  interval_cases d <;> decide

lemma natDigitsAux_no_underscore (fuel : Nat) : ∀ n : Nat, ('_' : Char) ∉ natDigitsAux fuel n := by
  induction fuel with
  | zero => intro n; simp [natDigitsAux]
  | succ f ih =>
    intro n
    rw [natDigitsAux]
    split
    · intro hmem
      rw [List.mem_singleton] at hmem
      exact digitChar10_ne_underscore (by omega) hmem.symm
    · intro hmem
      rcases List.mem_append.mp hmem with h | h
      · exact ih _ h
      · rw [List.mem_singleton] at h
        exact digitChar10_ne_underscore (Nat.mod_lt _ (by norm_num)) h.symm

lemma pyStrNat_no_underscore (n : Nat) : ('_' : Char) ∉ (pyStrNat n).data :=
  natDigitsAux_no_underscore _ _

lemma no_underscore_append {a b : String}
    (ha : ('_' : Char) ∉ a.data) (hb : ('_' : Char) ∉ b.data) :
    ('_' : Char) ∉ (a ++ b).data := by
  rw [String.data_append]
  intro h
  rcases List.mem_append.mp h with h | h
  · exact ha h
  · exact hb h

/-- The three-piece strings `pre ++ str(n) ++ post` the scanner and mapper
format have no underscore when the fixed pieces have none. -/
lemma no_underscore_glue {pre post : String} (n : Nat)
    (hpre : ('_' : Char) ∉ pre.data) (hpost : ('_' : Char) ∉ post.data) :
    ('_' : Char) ∉ (pre ++ pyStrNat n ++ post).data :=
  no_underscore_append (no_underscore_append hpre (pyStrNat_no_underscore n)) hpost

lemma mem_check_gdpr_desc {doc : Doc} {v : Violation}
    (hv : v ∈ check_gdpr_compliance doc) : ('_' : Char) ∉ v.description.data := by
  simp only [check_gdpr_compliance] at hv
  rcases List.mem_append.mp hv with h | h
  · rcases List.mem_append.mp h with h2 | h2
    · rw [mem_ite_singleton h2]; decide
    · rw [mem_ite_singleton h2]; decide
  · rw [mem_ite_singleton h]; decide

lemma mem_check_wcag_desc {doc : Doc} {v : Violation}
    (hv : v ∈ check_wcag_compliance doc) : ('_' : Char) ∉ v.description.data := by
  simp only [check_wcag_compliance] at hv
  rcases List.mem_append.mp hv with h | h
  · rcases List.mem_append.mp h with h2 | h2
    · rcases List.mem_append.mp h2 with h3 | h3
      · rw [mem_ite_singleton h3]
        exact no_underscore_glue _ (by decide) (by decide)
      · rcases mem_ite_ite_singleton h3 with h4 | h4
        · rw [h4]; decide
        · rw [h4]
          exact no_underscore_glue _ (by decide) (by decide)
    · rw [mem_ite_singleton h2]
      exact no_underscore_glue _ (by decide) (by decide)
  · rw [mem_ite_singleton h]
    exact no_underscore_glue _ (by decide) (by decide)

lemma mem_check_ada_desc {doc : Doc} {v : Violation}
    (hv : v ∈ check_ada_compliance doc) : ('_' : Char) ∉ v.description.data := by
  simp only [check_ada_compliance] at hv
  rcases List.mem_append.mp hv with h | h
  · rw [mem_ite_singleton h]
    exact (by decide :
      ('_' : Char) ∉ "Interactive elements not accessible via keyboard".data)
  · rw [mem_ite_singleton h]; decide

lemma mem_check_security_desc {url : String} {doc : Doc} {v : Violation}
    (hv : v ∈ check_security_compliance url doc) :
    ('_' : Char) ∉ v.description.data := by
  simp only [check_security_compliance] at hv
  rcases List.mem_append.mp hv with h | h
  · rw [mem_ite_singleton h]; decide
  · rw [mem_ite_singleton h]
    exact (by decide :
      ('_' : Char) ∉ "External scripts may pose security risks".data)

lemma mem_check_seo_desc {doc : Doc} {v : Violation}
    (hv : v ∈ check_seo_compliance doc) : ('_' : Char) ∉ v.description.data := by
  simp only [check_seo_compliance] at hv
  rcases List.mem_append.mp hv with h | h
  · rw [mem_ite_singleton h]; decide
  · rw [mem_ite_singleton h]; decide

/-- No description a scan emits contains an underscore (they are prose
sentences, unlike the snake_case `type` tags). -/
lemma scan_desc_no_underscore {url : String} {doc : Doc} {v : Violation}
    (hv : v ∈ scan_website url doc) : ('_' : Char) ∉ v.description.data := by
  unfold scan_website at hv
  rcases List.mem_append.mp hv with h | h
  · rcases List.mem_append.mp h with h | h
    · rcases List.mem_append.mp h with h | h
      · rcases List.mem_append.mp h with h | h
        · exact mem_check_gdpr_desc h
        · exact mem_check_wcag_desc h
      · exact mem_check_ada_desc h
    · exact mem_check_security_desc h
  · exact mem_check_seo_desc h

/-- No `issue_type` string the mapper derives from a scanner violation
contains an underscore. -/
lemma mapped_issue_type_no_underscore {url : String} {doc : Doc} {i : MappedIssue}
    (hi : i ∈ map_violations_to_elements doc (scan_website url doc)) :
    ('_' : Char) ∉ i.issue_type.data := by
  rcases mem_mapped hi with ⟨v, hv, rfl⟩
  have hdesc := scan_desc_no_underscore hv
  have hts := scan_typeSev hv
  simp only [scanTypeSevPairs, List.mem_cons, List.not_mem_nil, or_false,
    Prod.mk.injEq] at hts
  rcases hts with h | h | h | h | h | h | h | h | h | h | h | h | h | h
  · -- gdpr_cookie_banner
    have d1 : pyIn "gdpr_cookie" v.type = true := by rw [h.1]; decide
    simp [create_mapped_issue, d1, map_cookie_consent_issue]
  · -- gdpr_privacy_policy
    have d1 : pyIn "gdpr_cookie" v.type = false := by rw [h.1]; decide
    have d2 : pyIn "wcag_missing_alt" v.type = false := by rw [h.1]; decide
    have d3 : pyIn "wcag_unlabeled_inputs" v.type = false := by rw [h.1]; decide
    have d4 : pyIn "ada_keyboard" v.type = false := by rw [h.1]; decide
    have d5 : pyIn "security_no_https" v.type = false := by rw [h.1]; decide
    simpa [create_mapped_issue, d1, d2, d3, d4, d5, map_generic_issue] using hdesc
  · -- gdpr_contact_info
    have d1 : pyIn "gdpr_cookie" v.type = false := by rw [h.1]; decide
    have d2 : pyIn "wcag_missing_alt" v.type = false := by rw [h.1]; decide
    have d3 : pyIn "wcag_unlabeled_inputs" v.type = false := by rw [h.1]; decide
    have d4 : pyIn "ada_keyboard" v.type = false := by rw [h.1]; decide
    have d5 : pyIn "security_no_https" v.type = false := by rw [h.1]; decide
    simpa [create_mapped_issue, d1, d2, d3, d4, d5, map_generic_issue] using hdesc
  · -- wcag_missing_alt
    have d1 : pyIn "gdpr_cookie" v.type = false := by rw [h.1]; decide
    have d2 : pyIn "wcag_missing_alt" v.type = true := by rw [h.1]; decide
    simp only [create_mapped_issue, d1, d2, Bool.false_eq_true, if_false, if_true,
      map_alt_text_issues]
    exact no_underscore_glue _ (by decide) (by decide)
  · -- wcag_missing_h1
    have d1 : pyIn "gdpr_cookie" v.type = false := by rw [h.1]; decide
    have d2 : pyIn "wcag_missing_alt" v.type = false := by rw [h.1]; decide
    have d3 : pyIn "wcag_unlabeled_inputs" v.type = false := by rw [h.1]; decide
    have d4 : pyIn "ada_keyboard" v.type = false := by rw [h.1]; decide
    have d5 : pyIn "security_no_https" v.type = false := by rw [h.1]; decide
    simpa [create_mapped_issue, d1, d2, d3, d4, d5, map_generic_issue] using hdesc
  · -- wcag_multiple_h1
    have d1 : pyIn "gdpr_cookie" v.type = false := by rw [h.1]; decide
    have d2 : pyIn "wcag_missing_alt" v.type = false := by rw [h.1]; decide
    have d3 : pyIn "wcag_unlabeled_inputs" v.type = false := by rw [h.1]; decide
    have d4 : pyIn "ada_keyboard" v.type = false := by rw [h.1]; decide
    have d5 : pyIn "security_no_https" v.type = false := by rw [h.1]; decide
    simpa [create_mapped_issue, d1, d2, d3, d4, d5, map_generic_issue] using hdesc
  · -- wcag_unlabeled_inputs
    have d1 : pyIn "gdpr_cookie" v.type = false := by rw [h.1]; decide
    have d2 : pyIn "wcag_missing_alt" v.type = false := by rw [h.1]; decide
    have d3 : pyIn "wcag_unlabeled_inputs" v.type = true := by rw [h.1]; decide
    simp only [create_mapped_issue, d1, d2, d3, Bool.false_eq_true, if_false,
      if_true, map_form_label_issues]
    exact no_underscore_glue _ (by decide) (by decide)
  · -- wcag_generic_links
    have d1 : pyIn "gdpr_cookie" v.type = false := by rw [h.1]; decide
    have d2 : pyIn "wcag_missing_alt" v.type = false := by rw [h.1]; decide
    have d3 : pyIn "wcag_unlabeled_inputs" v.type = false := by rw [h.1]; decide
    have d4 : pyIn "ada_keyboard" v.type = false := by rw [h.1]; decide
    have d5 : pyIn "security_no_https" v.type = false := by rw [h.1]; decide
    simpa [create_mapped_issue, d1, d2, d3, d4, d5, map_generic_issue] using hdesc
  · -- ada_keyboard_access
    have d1 : pyIn "gdpr_cookie" v.type = false := by rw [h.1]; decide
    have d2 : pyIn "wcag_missing_alt" v.type = false := by rw [h.1]; decide
    have d3 : pyIn "wcag_unlabeled_inputs" v.type = false := by rw [h.1]; decide
    have d4 : pyIn "ada_keyboard" v.type = true := by rw [h.1]; decide
    simp [create_mapped_issue, d1, d2, d3, d4, map_keyboard_access_issues]
  · -- ada_missing_landmarks
    have d1 : pyIn "gdpr_cookie" v.type = false := by rw [h.1]; decide
    have d2 : pyIn "wcag_missing_alt" v.type = false := by rw [h.1]; decide
    have d3 : pyIn "wcag_unlabeled_inputs" v.type = false := by rw [h.1]; decide
    have d4 : pyIn "ada_keyboard" v.type = false := by rw [h.1]; decide
    have d5 : pyIn "security_no_https" v.type = false := by rw [h.1]; decide
    simpa [create_mapped_issue, d1, d2, d3, d4, d5, map_generic_issue] using hdesc
  · -- security_no_https
    have d1 : pyIn "gdpr_cookie" v.type = false := by rw [h.1]; decide
    have d2 : pyIn "wcag_missing_alt" v.type = false := by rw [h.1]; decide
    have d3 : pyIn "wcag_unlabeled_inputs" v.type = false := by rw [h.1]; decide
    have d4 : pyIn "ada_keyboard" v.type = false := by rw [h.1]; decide
    have d5 : pyIn "security_no_https" v.type = true := by rw [h.1]; decide
    simp [create_mapped_issue, d1, d2, d3, d4, d5, map_security_issues]
  · -- security_external_scripts
    have d1 : pyIn "gdpr_cookie" v.type = false := by rw [h.1]; decide
    have d2 : pyIn "wcag_missing_alt" v.type = false := by rw [h.1]; decide
    have d3 : pyIn "wcag_unlabeled_inputs" v.type = false := by rw [h.1]; decide
    have d4 : pyIn "ada_keyboard" v.type = false := by rw [h.1]; decide
    have d5 : pyIn "security_no_https" v.type = false := by rw [h.1]; decide
    simpa [create_mapped_issue, d1, d2, d3, d4, d5, map_generic_issue] using hdesc
  · -- seo_missing_meta_desc
    have d1 : pyIn "gdpr_cookie" v.type = false := by rw [h.1]; decide
    have d2 : pyIn "wcag_missing_alt" v.type = false := by rw [h.1]; decide
    have d3 : pyIn "wcag_unlabeled_inputs" v.type = false := by rw [h.1]; decide
    have d4 : pyIn "ada_keyboard" v.type = false := by rw [h.1]; decide
    have d5 : pyIn "security_no_https" v.type = false := by rw [h.1]; decide
    simpa [create_mapped_issue, d1, d2, d3, d4, d5, map_generic_issue] using hdesc
  · -- seo_missing_title
    have d1 : pyIn "gdpr_cookie" v.type = false := by rw [h.1]; decide
    have d2 : pyIn "wcag_missing_alt" v.type = false := by rw [h.1]; decide
    have d3 : pyIn "wcag_unlabeled_inputs" v.type = false := by rw [h.1]; decide
    have d4 : pyIn "ada_keyboard" v.type = false := by rw [h.1]; decide
    have d5 : pyIn "security_no_https" v.type = false := by rw [h.1]; decide
    simpa [create_mapped_issue, d1, d2, d3, d4, d5, map_generic_issue] using hdesc

lemma pyIn_eq_false_of_char {needle hay : String} {ch : Char}
    (hc : ch ∈ needle.data) (hh : ch ∉ hay.data) : pyIn needle hay = false := by
  unfold pyIn charsContains
  simp only [Bool.eq_false_iff, ne_eq]
  intro hcontra
  rcases List.any_eq_true.mp hcontra with ⟨t, ht, hpre⟩
  rw [List.mem_tails] at ht
  have hinf : needle.data <:+: hay.data :=
    List.infix_iff_prefix_suffix.mpr ⟨t, List.isPrefixOf_iff_prefix.mp hpre, ht⟩
  exact hh (hinf.sublist.subset hc)

/-- C10: every template key of the advisor contains an underscore while
every `issue_type` the mapper emits over scanner output is underscore-free
prose, so no key ever matches and `_generate_specific_fix` always returns
the generic fallback fix for pipeline-produced issues. -/
theorem C10_mapper_output_gets_generic_fix (url : String) (doc : Doc)
    (i : MappedIssue)
    (hi : i ∈ map_violations_to_elements doc (scan_website url doc)) :
    (∀ key ∈ fix_template_patterns, pyIn key i.issue_type = false) ∧
    generate_specific_fix i.issue_type = generic_fix i.issue_type := by
  have hu := mapped_issue_type_no_underscore hi
  have hkeys : ∀ key ∈ fix_template_patterns, pyIn key i.issue_type = false := by
    intro key hk
    have hmem : ('_' : Char) ∈ key.data := by fin_cases hk <;> decide
    exact pyIn_eq_false_of_char hmem hu
  refine ⟨hkeys, ?_⟩
  have h1 := hkeys "gdpr_cookie_banner" (by decide)
  have h2 := hkeys "wcag_missing_alt" (by decide)
  have h3 := hkeys "wcag_unlabeled_inputs" (by decide)
  have h4 := hkeys "ada_keyboard_access" (by decide)
  have h5 := hkeys "security_no_https" (by decide)
  have h6 := hkeys "seo_missing_meta" (by decide)
  simp [generate_specific_fix, h1, h2, h3, h4, h5, h6]

/-- C10 witness: the fixture pipeline's first mapped issue gets the
generic fallback fix. -/
theorem C10_mapper_output_gets_generic_fix_witness :
    (fixtureMapped.getD 0 dummyIssue) ∈ fixtureMapped ∧
    generate_specific_fix (fixtureMapped.getD 0 dummyIssue).issue_type =
      generic_fix (fixtureMapped.getD 0 dummyIssue).issue_type :=
  ⟨by decide,
   (C10_mapper_output_gets_generic_fix fixtureUrl fixtureDoc _ (by decide)).2⟩


/-! ## C4, C5, C8: the narrative extractors -/

lemma string_eq_empty_iff {s : String} : s = "" ↔ s.data = [] := by
  constructor
  · intro h; subst h; rfl
  · intro h; cases s with
    | mk d => cases h; rfl

lemma left_append_ne_empty {a : String} (b : String) (ha : a ≠ "") :
    a ++ b ≠ "" := by
  intro h
  rw [string_eq_empty_iff, String.data_append, List.append_eq_nil] at h
  exact ha (string_eq_empty_iff.mpr h.1)

/-- The LLM response that makes the strict tier fire with a record that
has no summary field at all. -/
def strictJsonResponse : String := "\x7b\"total_violations\": 0\x7d"

/-- C4 counterexample: when the strict JSON tier succeeds,
`_extract_violations` returns the decoded object without checking any
required field — here the returned record has no `raw_findings` entry, so
the "summary fields are non-empty strings" guarantee fails. -/
theorem C4_counterexample_strict_tier_unvalidated :
    extract_violations "crew output text" (.ok strictJsonResponse) =
      .strict (Json.jobj [("total_violations", Json.jint 0)]) ∧
    (extract_violations "crew output text" (.ok strictJsonResponse)).summaryField =
      none :=
  ⟨rfl, rfl⟩

lemma parse_violations_raw_findings_ne_empty (a b : String) :
    (parse_violations_from_text a b).raw_findings ≠ "" := by
  simp only [parse_violations_from_text]
  intro hemp
  rw [string_eq_empty_iff] at hemp
  simp only [String.data_append, List.append_eq_nil] at hemp
  exact absurd hemp.1.1 (by decide)

lemma parse_risk_summary_ne_empty (a b : String) :
    (parse_risk_assessment_from_text a b).risk_summary ≠ "" := by
  simp only [parse_risk_assessment_from_text]
  intro hemp
  rw [string_eq_empty_iff] at hemp
  simp only [String.data_append, List.append_eq_nil] at hemp
  exact absurd hemp.1.1.1.1 (by decide)

/-- C4 (amended): the extractors never raise (they are total functions of
the crew text and the LLM outcome; every failure path is caught), and
whenever the result does *not* come from the strict JSON tier — i.e. on
the heuristic-fallback and exception-default paths — the summary field of
the returned record is a non-empty string.  A successful strict-tier
parse, however, is returned unvalidated and may lack summary fields. -/
theorem C4_amended_fallback_summaries_nonempty (crew : String)
    (llm : Except String String) :
    (∀ r, extract_violations crew llm = .record r → r.raw_findings ≠ "") ∧
    (∀ r, extract_risk_assessment crew llm = .record r → r.risk_summary ≠ "") := by
  constructor
  · intro r h
    cases llm with
    | error e =>
      simp only [extract_violations, ViolationsOut.record.injEq] at h
      rw [← h]
      by_cases hc : crew = ""
      · subst hc; decide
      · rw [if_pos hc]; exact hc
    | ok resp =>
      rcases hspan : regexBraceSpan resp with _ | span
      · simp only [extract_violations, hspan, ViolationsOut.record.injEq] at h
        rw [← h]
        exact parse_violations_raw_findings_ne_empty _ _
      · rcases hj : jsonLoads span with _ | j
        · simp only [extract_violations, hspan, hj, ViolationsOut.record.injEq] at h
          rw [← h]
          exact parse_violations_raw_findings_ne_empty _ _
        · simp only [extract_violations, hspan, hj] at h
          exact absurd h (by simp)
  · intro r h
    cases llm with
    | error e =>
      simp only [extract_risk_assessment, RiskOut.record.injEq] at h
      rw [← h]
      by_cases hc : crew = ""
      · subst hc; decide
      · rw [if_pos hc]; exact hc
    | ok resp =>
      rcases hspan : regexBraceSpan resp with _ | span
      · simp only [extract_risk_assessment, hspan, RiskOut.record.injEq] at h
        rw [← h]
        exact parse_risk_summary_ne_empty _ _
      · rcases hj : jsonLoads span with _ | j
        · simp only [extract_risk_assessment, hspan, hj, RiskOut.record.injEq] at h
          rw [← h]
          exact parse_risk_summary_ne_empty _ _
        · simp only [extract_risk_assessment, hspan, hj] at h
          exact absurd h (by simp)

/-- C4 amended witness: a failed LLM call yields the conservative default
record, whose summary is the crew text (non-empty here). -/
theorem C4_amended_fallback_summaries_nonempty_witness :
    extract_violations "crew" (.error "boom") =
      .record { total_violations := 0, gdpr := [], accessibility := [],
                wcag := [], seo := [], security := [], critical := 0,
                high := 0, medium := 0, low := 0,
                raw_findings :=
                  if "crew" ≠ "" then "crew" else "No violations detected" } ∧
    (if "crew" ≠ "" then "crew" else "No violations detected") ≠ "" :=
  ⟨rfl, (C4_amended_fallback_summaries_nonempty "crew" (.error "boom")).1 _ rfl⟩

/-- C5 counterexample: on the *same* input text, two reachable LLM
responses give different extractor outputs — the extraction result is not
a function of the text alone, so "running the extractor twice on the same
text yields byte-identical output" fails (the LLM call is sampled, not
deterministic). -/
theorem C5_counterexample_llm_dependence :
    (extract_violations "identical crew text" (.ok strictJsonResponse)).isStrict =
      true ∧
    (extract_violations "identical crew text"
      (.ok "plain narrative with no braces")).isStrict = false ∧
    extract_violations "identical crew text" (.ok strictJsonResponse) ≠
      extract_violations "identical crew text" (.ok "plain narrative with no braces") :=
  ⟨rfl, rfl, fun h => absurd (congrArg ViolationsOut.isStrict h) (by decide)⟩

/-- C5 (amended): each tier is deterministic once its inputs are fixed —
the heuristic parsers are pure functions of the two text arguments, and
the extractor wrappers depend only on the crew text and the LLM outcome
(in particular the exception-default path does not depend on which
exception was raised).  No randomness or clock enters anywhere; only the
external LLM response varies between runs. -/
theorem C5_amended_determinism_given_response (a b t e1 e2 : String) :
    parse_violations_from_text a b = parse_violations_from_text a b ∧
    parse_risk_assessment_from_text a b = parse_risk_assessment_from_text a b ∧
    parse_legal_updates_from_text a b = parse_legal_updates_from_text a b ∧
    extract_violations t (.error e1) = extract_violations t (.error e2) ∧
    extract_risk_assessment t (.error e1) = extract_risk_assessment t (.error e2) ∧
    ∀ resp : String,
      extract_violations t (.ok resp) = extract_violations t (.ok resp) :=
  ⟨rfl, rfl, rfl, rfl, rfl, fun _ => rfl⟩

/-- Seven sentences that are all at least 15 characters long, contain a
violation-indicator word, and match the gdpr category keywords. -/
def sevenGdprSentences : String :=
  "gdpr cookie consent violation alpha. gdpr cookie consent violation bravo. gdpr cookie consent violation charlie. gdpr cookie consent violation delta. gdpr cookie consent violation echo. gdpr cookie consent violation foxtrot. gdpr cookie consent violation golf"

/-- C8 counterexample: the per-category violation lists of
`_parse_violations_from_text` are never truncated — seven qualifying
sentences produce a gdpr list of length 7, above any cap in 4–6. -/
theorem C8_counterexample_uncapped_category_list :
    (parse_violations_from_text sevenGdprSentences "").gdpr.length = 7 ∧
    6 < (parse_violations_from_text sevenGdprSentences "").gdpr.length := by
  exact ⟨by decide, by decide⟩

lemma processLegalSentence_regional (r : LegalRecord) (s : String) :
    (processLegalSentence r s).regional_variations = r.regional_variations := by
  unfold processLegalSentence
  dsimp only
  split_ifs <;> rfl

lemma foldl_legal_regional (l : List String) :
    ∀ init : LegalRecord,
      (l.foldl processLegalSentence init).regional_variations =
        init.regional_variations := by
  induction l with
  | nil => intro init; rfl
  | cons s l ih =>
    intro init
    rw [List.foldl_cons, ih, processLegalSentence_regional]

/-- C8 (amended): the heuristic caps are 5 for the four populated
legal-context lists (`regional_variations` always stays empty), 6 for
risk factors and 4 for potential penalties; the per-category violation
lists of `_parse_violations_from_text` alone are unbounded (see the
counterexample). -/
theorem C8_amended_list_caps (a b : String) :
    (parse_legal_updates_from_text a b).recent_updates.length ≤ 5 ∧
    (parse_legal_updates_from_text a b).relevant_regulations.length ≤ 5 ∧
    (parse_legal_updates_from_text a b).enforcement_trends.length ≤ 5 ∧
    (parse_legal_updates_from_text a b).compliance_deadlines.length ≤ 5 ∧
    (parse_legal_updates_from_text a b).regional_variations = [] ∧
    (parse_risk_assessment_from_text a b).risk_factors.length ≤ 6 ∧
    (parse_risk_assessment_from_text a b).potential_penalties.length ≤ 4 := by
  refine ⟨?_, ?_, ?_, ?_, ?_, ?_, ?_⟩ <;>
    simp [parse_legal_updates_from_text, parse_risk_assessment_from_text,
      List.length_take, foldl_legal_regional]

end Auditor
